import Mathlib

/-!
# Hypervisor protocol messages (proto/hypervisor/messages.go)

The protocol file consists of one constant block and a list of type
declarations.  Both are embedded as data: a constant is a pair of its name and
value, a struct declaration is its name, the comment written on its opening
line, and its fields in source order with their Go types as written.
-/

namespace Hypervisor

/-- A field of a struct declaration.  An embedded field (a type name written
alone, as `VmInfo` in `CopyVmRequest`) has its type name as field name. -/
structure Field where
  name : String
  goType : String
  embedded : Bool
  deriving DecidableEq, Repr

/-- A struct declaration: name, comment on the opening line, fields. -/
structure StructDecl where
  name : String
  comment : String
  fields : List Field
  deriving DecidableEq, Repr

/-- A named field with its Go type. -/
def fld (name type : String) : Field := ⟨name, type, false⟩

/-- An embedded field. -/
def emb (type : String) : Field := ⟨type, type, true⟩

/-- The constant block of messages.go, lines 12 to 53, in source order. -/
def constants : List (String × Nat) := [
  ("ConsoleNone", 0), ("ConsoleDummy", 1), ("ConsoleVNC", 2),
  ("FirmwareDefault", 0), ("FirmwareBIOS", 1), ("FirmwareUEFI", 2),
  ("MachineTypeGenericPC", 0), ("MachineTypeQ35", 1),
  ("StateStarting", 0), ("StateRunning", 1), ("StateFailedToStart", 2),
  ("StateStopping", 3), ("StateStopped", 4), ("StateDestroying", 5),
  ("StateMigrating", 6), ("StateExporting", 7), ("StateCrashed", 8),
  ("StateDebugging", 9),
  ("VolumeFormatRaw", 0), ("VolumeFormatQCOW2", 1),
  ("VolumeInterfaceVirtIO", 0), ("VolumeInterfaceIDE", 1),
  ("VolumeInterfaceNVMe", 2),
  ("VolumeTypePersistent", 0), ("VolumeTypeMemory", 1),
  ("WatchdogActionNone", 0), ("WatchdogActionReset", 1),
  ("WatchdogActionShutdown", 2), ("WatchdogActionPowerOff", 3),
  ("WatchdogModelNone", 0), ("WatchdogModelIb700", 1),
  ("WatchdogModelI6300esb", 2)
]

def StateStarting : Nat := 0
def StateRunning : Nat := 1
def StateFailedToStart : Nat := 2
def StateStopping : Nat := 3
def StateStopped : Nat := 4
def StateDestroying : Nat := 5
def StateMigrating : Nat := 6
def StateExporting : Nat := 7
def StateCrashed : Nat := 8
def StateDebugging : Nat := 9

/-- The non-struct type declarations of messages.go (`type State uint` and
its like), as pairs of name and underlying type. -/
def namedTypes : List (String × String) := [
  ("AddressList", "[]Address"), ("ConsoleType", "uint"),
  ("FirmwareType", "uint"), ("MachineType", "uint"), ("State", "uint"),
  ("VolumeFormat", "uint"), ("VolumeInterface", "uint"),
  ("VolumeType", "uint"), ("WatchdogAction", "uint"),
  ("WatchdogModel", "uint")
]

/-- A struct declaration from its name, opening-line comment and fields. -/
def struct (name comment : String) (fields : List Field) : StructDecl :=
  ⟨name, comment, fields⟩

/-- The struct declarations from AcknowledgeVmRequest to ChangeVmCpuPriorityResponse, in source order. -/
def messages1 : List StructDecl := [
  struct "AcknowledgeVmRequest" "" [fld "IpAddress" "net.IP"],
  struct "AcknowledgeVmResponse" "" [fld "Error" "string"],
  struct "Address" "" [fld "IpAddress" "net.IP", fld "MacAddress" "string"],
  struct "AddVmVolumesRequest" "" [fld "IpAddress" "net.IP",
    fld "VolumeSizes" "[]uint64"],
  struct "AddVmVolumesResponse" "" [fld "Error" "string"],
  struct "BecomePrimaryVmOwnerRequest" "" [fld "IpAddress" "net.IP"],
  struct "BecomePrimaryVmOwnerResponse" "" [fld "Error" "string"],
  struct "ChangeAddressPoolRequest" "" [fld "AddressesToAdd" "[]Address",
    fld "AddressesToRemove" "[]Address",
    fld "MaximumFreeAddresses" "map[string]uint"],
  struct "ChangeAddressPoolResponse" "" [fld "Error" "string"],
  struct "ChangeOwnersRequest" "" [fld "OwnerGroups" "[]string",
    fld "OwnerUsers" "[]string"],
  struct "ChangeOwnersResponse" "" [fld "Error" "string"],
  struct "ChangeVmConsoleTypeRequest" "" [fld "ConsoleType" "ConsoleType",
    fld "IpAddress" "net.IP"],
  struct "ChangeVmConsoleTypeResponse" "" [fld "Error" "string"],
  struct "ChangeVmCpuPriorityRequest" "" [fld "CpuPriority" "int",
    fld "IpAddress" "net.IP"],
  struct "ChangeVmCpuPriorityResponse" "" [fld "Error" "string"]
]

/-- The struct declarations from ChangeVmDestroyProtectionRequest to ChangeVmVolumeInterfacesRequest, in source order. -/
def messages2 : List StructDecl := [
  struct "ChangeVmDestroyProtectionRequest" "" [fld "DestroyProtection" "bool",
    fld "IpAddress" "net.IP"],
  struct "ChangeVmDestroyProtectionResponse" "" [fld "Error" "string"],
  struct "ChangeVmMachineTypeRequest" "" [fld "MachineType" "MachineType",
    fld "IpAddress" "net.IP"],
  struct "ChangeVmMachineTypeResponse" "" [fld "Error" "string"],
  struct "ChangeVmOwnerGroupsRequest" "" [fld "IpAddress" "net.IP",
    fld "OwnerGroups" "[]string"],
  struct "ChangeVmOwnerGroupsResponse" "" [fld "Error" "string"],
  struct "ChangeVmOwnerUsersRequest" "" [fld "IpAddress" "net.IP",
    fld "OwnerUsers" "[]string"],
  struct "ChangeVmOwnerUsersResponse" "" [fld "Error" "string"],
  struct "ChangeVmSizeRequest" "" [fld "IpAddress" "net.IP",
    fld "MemoryInMiB" "uint64",
    fld "MilliCPUs" "uint",
    fld "VirtualCPUs" "uint"],
  struct "ChangeVmSubnetRequest" "" [fld "IpAddress" "net.IP",
    fld "SubnetId" "string"],
  struct "ChangeVmSubnetResponse" "" [fld "Error" "string",
    fld "NewIpAddress" "net.IP",
    fld "OldIdentityName" "string"],
  struct "ChangeVmSizeResponse" "" [fld "Error" "string"],
  struct "ChangeVmTagsRequest" "" [fld "IpAddress" "net.IP",
    fld "Tags" "tags.Tags"],
  struct "ChangeVmTagsResponse" "" [fld "Error" "string"],
  struct "ChangeVmVolumeInterfacesRequest" "" [fld "Interfaces" "[]VolumeInterface",
    fld "IpAddress" "net.IP"]
]

/-- The struct declarations from ChangeVmVolumeInterfacesResponse to CreateVmResponse, in source order. -/
def messages3 : List StructDecl := [
  struct "ChangeVmVolumeInterfacesResponse" "" [fld "Error" "string"],
  struct "ChangeVmVolumeSizeRequest" "" [fld "IpAddress" "net.IP",
    fld "VolumeIndex" "uint",
    fld "VolumeSize" "uint64"],
  struct "ChangeVmVolumeSizeResponse" "" [fld "Error" "string"],
  struct "CommitImportedVmRequest" "" [fld "IpAddress" "net.IP"],
  struct "CommitImportedVmResponse" "" [fld "Error" "string"],
  struct "ConnectToVmConsoleRequest" "" [fld "IpAddress" "net.IP"],
  struct "ConnectToVmConsoleResponse" "" [fld "Error" "string"],
  struct "ConnectToVmManagerRequest" "" [fld "IpAddress" "net.IP"],
  struct "ConnectToVmManagerResponse" "" [fld "Error" "string"],
  struct "ConnectToVmSerialPortRequest" "" [fld "IpAddress" "net.IP",
    fld "PortNumber" "uint"],
  struct "ConnectToVmSerialPortResponse" "" [fld "Error" "string"],
  struct "CopyVmRequest" "" [fld "AccessToken" "[]byte",
    fld "IpAddress" "net.IP",
    fld "SkipMemoryCheck" "bool",
    fld "SourceHypervisor" "string",
    emb "VmInfo"],
  struct "CopyVmResponse" "Multiple responses are sent." [fld "Error" "string",
    fld "Final" "bool",
    fld "IpAddress" "net.IP",
    fld "ProgressMessage" "string"],
  struct "CreateVmRequest" "" [fld "DhcpTimeout" "time.Duration",
    fld "DoNotStart" "bool",
    fld "EnableNetboot" "bool",
    fld "IdentityCertificate" "[]byte",
    fld "IdentityKey" "[]byte",
    fld "ImageDataSize" "uint64",
    fld "ImageTimeout" "time.Duration",
    fld "MinimumFreeBytes" "uint64",
    fld "OverlayDirectories" "[]string",
    fld "OverlayFiles" "map[string][]byte",
    fld "RoundupPower" "uint64",
    fld "SecondaryVolumes" "[]Volume",
    fld "SecondaryVolumesData" "bool",
    fld "SecondaryVolumesInit" "[]VolumeInitialisationInfo",
    fld "SkipBootloader" "bool",
    fld "SkipMemoryCheck" "bool",
    fld "StorageIndices" "[]uint",
    fld "UserDataSize" "uint64",
    emb "VmInfo"],
  struct "CreateVmResponse" "Multiple responses are sent." [fld "DhcpTimedOut" "bool",
    fld "Final" "bool",
    fld "IpAddress" "net.IP",
    fld "ProgressMessage" "string",
    fld "Error" "string"]
]

/-- The struct declarations from DebugVmImageRequest to ExportLocalVmInfo, in source order. -/
def messages4 : List StructDecl := [
  struct "DebugVmImageRequest" "" [fld "DhcpTimeout" "time.Duration",
    fld "ImageDataSize" "uint64",
    fld "ImageName" "string",
    fld "ImageTimeout" "time.Duration",
    fld "ImageURL" "string",
    fld "IpAddress" "net.IP",
    fld "MinimumFreeBytes" "uint64",
    fld "OverlayFiles" "map[string][]byte",
    fld "RoundupPower" "uint64"],
  struct "DebugVmImageResponse" "Multiple responses are sent." [fld "DhcpTimedOut" "bool",
    fld "Final" "bool",
    fld "ProgressMessage" "string",
    fld "Error" "string"],
  struct "DeleteVmVolumeRequest" "" [fld "AccessToken" "[]byte",
    fld "IpAddress" "net.IP",
    fld "VolumeIndex" "uint"],
  struct "DeleteVmVolumeResponse" "" [fld "Error" "string"],
  struct "DestroyVmRequest" "" [fld "AccessToken" "[]byte",
    fld "IpAddress" "net.IP"],
  struct "DestroyVmResponse" "" [fld "Error" "string"],
  struct "DiscardVmAccessTokenRequest" "" [fld "AccessToken" "[]byte",
    fld "IpAddress" "net.IP"],
  struct "DiscardVmAccessTokenResponse" "" [fld "Error" "string"],
  struct "DiscardVmOldImageRequest" "" [fld "IpAddress" "net.IP"],
  struct "DiscardVmOldImageResponse" "" [fld "Error" "string"],
  struct "DiscardVmOldUserDataRequest" "" [fld "IpAddress" "net.IP"],
  struct "DiscardVmOldUserDataResponse" "" [fld "Error" "string"],
  struct "DiscardVmSnapshotRequest" "" [fld "IpAddress" "net.IP",
    fld "Name" "string"],
  struct "DiscardVmSnapshotResponse" "" [fld "Error" "string"],
  struct "ExportLocalVmInfo" "" [fld "Bridges" "[]string", emb "LocalVmInfo"]
]

/-- The struct declarations from ExportLocalVmRequest to GetVmInfoRequest, in source order. -/
def messages5 : List StructDecl := [
  struct "ExportLocalVmRequest" "" [fld "IpAddress" "net.IP",
    fld "VerificationCookie" "[]byte"],
  struct "ExportLocalVmResponse" "" [fld "Error" "string",
    fld "VmInfo" "ExportLocalVmInfo"],
  struct "GetCapacityRequest" "" [],
  struct "GetCapacityResponse" "" [fld "MemoryInMiB" "uint64",
    fld "NumCPUs" "uint",
    fld "TotalVolumeBytes" "uint64"],
  struct "GetIdentityProviderRequest" "" [],
  struct "GetIdentityProviderResponse" "" [fld "Error" "string",
    fld "BaseUrl" "string"],
  struct "GetPublicKeyRequest" "" [],
  struct "GetPublicKeyResponse" "" [fld "Error" "string",
    fld "KeyPEM" "[]byte"],
  struct "GetRootCookiePathRequest" "" [],
  struct "GetRootCookiePathResponse" "" [fld "Error" "string",
    fld "Path" "string"],
  struct "GetUpdatesRequest" "" [fld "RegisterExternalLeasesRequest" "*RegisterExternalLeasesRequest"],
  struct "Update" "" [fld "HaveAddressPool" "bool",
    fld "AddressPool" "[]Address",
    fld "HaveDisabled" "bool",
    fld "Disabled" "bool",
    fld "MemoryInMiB" "*uint64",
    fld "NumCPUs" "*uint",
    fld "NumFreeAddresses" "map[string]uint",
    fld "HealthStatus" "string",
    fld "HaveSerialNumber" "bool",
    fld "SerialNumber" "string",
    fld "HaveSubnets" "bool",
    fld "Subnets" "[]Subnet",
    fld "TotalVolumeBytes" "*uint64",
    fld "HaveVMs" "bool",
    fld "VMs" "map[string]*VmInfo"],
  struct "GetVmAccessTokenRequest" "" [fld "IpAddress" "net.IP",
    fld "Lifetime" "time.Duration"],
  struct "GetVmAccessTokenResponse" "" [fld "Token" "[]byte",
    fld "Error" "string"],
  struct "GetVmInfoRequest" "" [fld "IpAddress" "net.IP"]
]

/-- The struct declarations from GetVmInfoResponse to ListSubnetsResponse, in source order. -/
def messages6 : List StructDecl := [
  struct "GetVmInfoResponse" "" [fld "VmInfo" "VmInfo", fld "Error" "string"],
  struct "GetVmInfosRequest" "" [fld "IgnoreStateMask" "uint64",
    fld "OwnerGroups" "[]string",
    fld "OwnerUsers" "[]string",
    fld "VmTagsToMatch" "tags.MatchTags"],
  struct "GetVmInfosResponse" "" [fld "Error" "string",
    fld "VmInfos" "[]VmInfo"],
  struct "GetVmLastPatchLogRequest" "" [fld "IpAddress" "net.IP"],
  struct "GetVmLastPatchLogResponse" "" [fld "Error" "string",
    fld "Length" "uint64",
    fld "PatchTime" "time.Time"],
  struct "GetVmUserDataRequest" "" [fld "AccessToken" "[]byte",
    fld "IpAddress" "net.IP"],
  struct "GetVmUserDataResponse" "" [fld "Error" "string",
    fld "Length" "uint64"],
  struct "GetVmVolumeRequest" "" [fld "AccessToken" "[]byte",
    fld "GetExtraFiles" "bool",
    fld "IgnoreExtraFiles" "bool",
    fld "IpAddress" "net.IP",
    fld "VolumeIndex" "uint"],
  struct "GetVmVolumeResponse" "" [fld "Error" "string",
    fld "ExtraFiles" "map[string][]byte"],
  struct "HoldLockRequest" "" [fld "Timeout" "time.Duration",
    fld "WriteLock" "bool"],
  struct "HoldLockResponse" "" [fld "Error" "string"],
  struct "HoldVmLockRequest" "" [fld "IpAddress" "net.IP",
    fld "Timeout" "time.Duration",
    fld "WriteLock" "bool"],
  struct "HoldVmLockResponse" "" [fld "Error" "string"],
  struct "ListSubnetsRequest" "" [fld "Sort" "bool"],
  struct "ListSubnetsResponse" "" [fld "Error" "string",
    fld "Subnets" "[]Subnet"]
]

/-- The struct declarations from ImportLocalVmRequest to PatchVmImageResponse, in source order. -/
def messages7 : List StructDecl := [
  struct "ImportLocalVmRequest" "" [fld "SkipMemoryCheck" "bool",
    fld "VerificationCookie" "[]byte",
    emb "VmInfo",
    fld "VolumeFilenames" "[]string"],
  struct "ImportLocalVmResponse" "" [fld "Error" "string"],
  struct "ListVMsRequest" "" [fld "IgnoreStateMask" "uint64",
    fld "OwnerGroups" "[]string",
    fld "OwnerUsers" "[]string",
    fld "Sort" "bool",
    fld "VmTagsToMatch" "tags.MatchTags"],
  struct "ListVMsResponse" "" [fld "IpAddresses" "[]net.IP"],
  struct "ListVolumeDirectoriesRequest" "" [],
  struct "ListVolumeDirectoriesResponse" "" [fld "Directories" "[]string",
    fld "Error" "string"],
  struct "LocalVolume" "" [fld "DirectoryToCleanup" "string",
    fld "Filename" "string"],
  struct "LocalVmInfo" "" [emb "VmInfo", fld "VolumeLocations" "[]LocalVolume"],
  struct "MigrateVmRequest" "" [fld "AccessToken" "[]byte",
    fld "DhcpTimeout" "time.Duration",
    fld "IpAddress" "net.IP",
    fld "SkipMemoryCheck" "bool",
    fld "SourceHypervisor" "string"],
  struct "MigrateVmResponse" "Multiple responses are sent." [fld "Error" "string",
    fld "Final" "bool",
    fld "ProgressMessage" "string",
    fld "RequestCommit" "bool"],
  struct "MigrateVmResponseResponse" "" [fld "Commit" "bool"],
  struct "NetbootMachineRequest" "" [fld "Address" "Address",
    fld "Files" "map[string][]byte",
    fld "FilesExpiration" "time.Duration",
    fld "Hostname" "string",
    fld "NumAcknowledgementsToWaitFor" "uint",
    fld "OfferExpiration" "time.Duration",
    fld "Subnet" "*Subnet",
    fld "WaitTimeout" "time.Duration"],
  struct "NetbootMachineResponse" "" [fld "Error" "string"],
  struct "PatchVmImageRequest" "" [fld "ImageName" "string",
    fld "ImageTimeout" "time.Duration",
    fld "IpAddress" "net.IP",
    fld "SkipBackup" "bool"],
  struct "PatchVmImageResponse" "Multiple responses are sent." [fld "Final" "bool",
    fld "ProgressMessage" "string",
    fld "Error" "string"]
]

/-- The struct declarations from PowerOffRequest to ReplaceVmImageRequest, in source order. -/
def messages8 : List StructDecl := [
  struct "PowerOffRequest" "" [fld "StopVMs" "bool"],
  struct "PowerOffResponse" "" [fld "Error" "string"],
  struct "PrepareVmForMigrationRequest" "" [fld "AccessToken" "[]byte",
    fld "Enable" "bool",
    fld "IpAddress" "net.IP"],
  struct "PrepareVmForMigrationResponse" "" [fld "Error" "string"],
  struct "ProbeVmPortRequest" "" [fld "IpAddress" "net.IP",
    fld "PortNumber" "uint",
    fld "Timeout" "time.Duration"],
  struct "ProbeVmPortResponse" "" [fld "PortIsOpen" "bool",
    fld "Error" "string"],
  struct "RebootVmRequest" "" [fld "DhcpTimeout" "time.Duration",
    fld "IpAddress" "net.IP"],
  struct "RebootVmResponse" "" [fld "DhcpTimedOut" "bool",
    fld "Error" "string"],
  struct "RegisterExternalLeasesRequest" "" [fld "Addresses" "AddressList",
    fld "Hostnames" "[]string"],
  struct "RegisterExternalLeasesResponse" "" [fld "Error" "string"],
  struct "ReplaceVmCredentialsRequest" "" [fld "IdentityCertificate" "[]byte",
    fld "IdentityKey" "[]byte",
    fld "IpAddress" "net.IP"],
  struct "ReplaceVmCredentialsResponse" "" [fld "Error" "string"],
  struct "ReplaceVmIdentityRequest" "" [fld "IdentityRequestorCertificate" "[]byte",
    fld "IpAddress" "net.IP"],
  struct "ReplaceVmIdentityResponse" "" [fld "Error" "string"],
  struct "ReplaceVmImageRequest" "" [fld "DhcpTimeout" "time.Duration",
    fld "ImageDataSize" "uint64",
    fld "ImageName" "string",
    fld "ImageTimeout" "time.Duration",
    fld "ImageURL" "string",
    fld "IpAddress" "net.IP",
    fld "MinimumFreeBytes" "uint64",
    fld "OverlayFiles" "map[string][]byte",
    fld "RoundupPower" "uint64",
    fld "SkipBackup" "bool",
    fld "SkipBootloader" "bool"]
]

/-- The struct declarations from ReplaceVmImageResponse to SetDisabledStateResponse, in source order. -/
def messages9 : List StructDecl := [
  struct "ReplaceVmImageResponse" "Multiple responses are sent." [fld "DhcpTimedOut" "bool",
    fld "Final" "bool",
    fld "ProgressMessage" "string",
    fld "Error" "string"],
  struct "ReplaceVmUserDataRequest" "" [fld "IpAddress" "net.IP",
    fld "Size" "uint64"],
  struct "ReplaceVmUserDataResponse" "" [fld "Error" "string"],
  struct "RestoreVmFromSnapshotRequest" "" [fld "IpAddress" "net.IP",
    fld "ForceIfNotStopped" "bool",
    fld "Name" "string"],
  struct "RestoreVmFromSnapshotResponse" "" [fld "Error" "string"],
  struct "RestoreVmImageRequest" "" [fld "IpAddress" "net.IP"],
  struct "RestoreVmImageResponse" "" [fld "Error" "string"],
  struct "RestoreVmUserDataRequest" "" [fld "IpAddress" "net.IP"],
  struct "RestoreVmUserDataResponse" "" [fld "Error" "string"],
  struct "ReorderVmVolumesRequest" "" [fld "AccessToken" "[]byte",
    fld "IpAddress" "net.IP",
    fld "VolumeIndices" "[]uint"],
  struct "ReorderVmVolumesResponse" "" [fld "Error" "string"],
  struct "ScanVmRootRequest" "" [fld "IpAddress" "net.IP",
    fld "Filter" "*filter.Filter"],
  struct "ScanVmRootResponse" "" [fld "Error" "string",
    fld "FileSystem" "*filesystem.FileSystem"],
  struct "SetDisabledStateRequest" "" [fld "Disable" "bool"],
  struct "SetDisabledStateResponse" "" [fld "Error" "string"]
]

/-- The struct declarations from SnapshotVmRequest to WatchDhcpRequest, in source order. -/
def messages10 : List StructDecl := [
  struct "SnapshotVmRequest" "" [fld "IpAddress" "net.IP",
    fld "ForceIfNotStopped" "bool",
    fld "Name" "string",
    fld "RootOnly" "bool"],
  struct "SnapshotVmResponse" "" [fld "Error" "string"],
  struct "StartVmRequest" "" [fld "AccessToken" "[]byte",
    fld "DhcpTimeout" "time.Duration",
    fld "IpAddress" "net.IP"],
  struct "StartVmResponse" "" [fld "DhcpTimedOut" "bool", fld "Error" "string"],
  struct "StopVmRequest" "" [fld "AccessToken" "[]byte",
    fld "IpAddress" "net.IP"],
  struct "StopVmResponse" "" [fld "Error" "string"],
  struct "Subnet" "" [fld "Id" "string", fld "IpGateway" "net.IP",
    fld "IpMask" "net.IP",
    fld "DomainName" "string",
    fld "DomainNameServers" "[]net.IP",
    fld "DisableMetadata" "bool",
    fld "Manage" "bool",
    fld "VlanId" "uint",
    fld "AllowedGroups" "[]string",
    fld "AllowedUsers" "[]string",
    fld "FirstDynamicIP" "net.IP",
    fld "LastDynamicIP" "net.IP"],
  struct "TraceVmMetadataRequest" "" [fld "IpAddress" "net.IP"],
  struct "TraceVmMetadataResponse" "" [fld "Error" "string"],
  struct "UpdateSubnetsRequest" "" [fld "Add" "[]Subnet",
    fld "Change" "[]Subnet",
    fld "Delete" "[]string"],
  struct "UpdateSubnetsResponse" "" [fld "Error" "string"],
  struct "VmInfo" "" [fld "Address" "Address",
    fld "ChangedStateOn" "time.Time",
    fld "ConsoleType" "ConsoleType",
    fld "CreatedOn" "time.Time",
    fld "CpuPriority" "int",
    fld "DestroyOnPowerdown" "bool",
    fld "DestroyProtection" "bool",
    fld "DisableVirtIO" "bool",
    fld "ExtraKernelOptions" "string",
    fld "FirmwareType" "FirmwareType",
    fld "Hostname" "string",
    fld "IdentityExpires" "time.Time",
    fld "IdentityName" "string",
    fld "ImageName" "string",
    fld "ImageURL" "string",
    fld "MachineType" "MachineType",
    fld "MemoryInMiB" "uint64",
    fld "MilliCPUs" "uint",
    fld "OwnerGroups" "[]string",
    fld "OwnerUsers" "[]string",
    fld "RootFileSystemLabel" "string",
    fld "SpreadVolumes" "bool",
    fld "State" "State",
    fld "SecondaryAddresses" "[]Address",
    fld "SecondarySubnetIDs" "[]string",
    fld "SubnetId" "string",
    fld "Tags" "tags.Tags",
    fld "Uncommitted" "bool",
    fld "VirtualCPUs" "uint",
    fld "Volumes" "[]Volume",
    fld "WatchdogAction" "WatchdogAction",
    fld "WatchdogModel" "WatchdogModel"],
  struct "Volume" "" [fld "Format" "VolumeFormat",
    fld "Interface" "VolumeInterface",
    fld "Size" "uint64",
    fld "Snapshots" "map[string]uint64",
    fld "Type" "VolumeType"],
  struct "VolumeInitialisationInfo" "" [fld "BytesPerInode" "uint64",
    fld "Label" "string",
    fld "ReservedBlocksPercentage" "uint16"],
  struct "WatchDhcpRequest" "" [fld "Interface" "string",
    fld "MaxPackets" "uint64"]
]

/-- The struct declarations from WatchDhcpResponse to WatchDhcpResponse, in source order. -/
def messages11 : List StructDecl := [
  struct "WatchDhcpResponse" "" [fld "Error" "string",
    fld "Interface" "string",
    fld "Packet" "[]byte"]
]

/-- All struct declarations of messages.go, in source order. -/
def messages : List StructDecl :=
  messages1 ++ messages2 ++ messages3 ++ messages4 ++ messages5 ++ messages6 ++
  messages7 ++ messages8 ++ messages9 ++ messages10 ++ messages11

/-! ## Queries over the declarations -/

/-- Whether the name ends in the given suffix. -/
def endsIn (suffix name : String) : Bool :=
  suffix.data.reverse.isPrefixOf name.data.reverse

/-- Whether the name starts with the given prefix. -/
def startsIn (pre name : String) : Bool :=
  pre.data.isPrefixOf name.data

/-- Whether the word occurs somewhere inside the name. -/
def containsWord (word name : String) : Bool :=
  name.data.tails.any (fun t => word.data.isPrefixOf t)

/-- The declaration of the struct of that name, when there is one. -/
def findStruct (name : String) : Option StructDecl :=
  messages.find? (fun d => d.name == name)

/-- Whether the declaration itself lists a field of that name and Go type
(fields promoted from an embedded struct are not counted). -/
def StructDecl.hasField (d : StructDecl) (name type : String) : Bool :=
  d.fields.any (fun f => f.name == name && f.goType == type)

/-- Whether the declaration has a field of that name, of any type. -/
def StructDecl.hasFieldNamed (d : StructDecl) (name : String) : Bool :=
  d.fields.any (fun f => f.name == name)

/-- Whether the struct of that name is declared with such a field. -/
def structHasField (struct name type : String) : Bool :=
  match findStruct struct with
  | some d => d.hasField name type
  | none => false

/-- The constants of the block whose names begin with State. -/
def stateConstants : List (String × Nat) :=
  constants.filter (fun c => startsIn "State" c.1)

/-- The response message types: the structs whose name ends in Response. -/
def responseTypes : List StructDecl :=
  messages.filter (fun d => endsIn "Response" d.name)

/-- The response types that lack a string field named Error. -/
def responsesWithoutError : List String :=
  (responseTypes.filter (fun d => !d.hasField "Error" "string")).map
    (fun d => d.name)

/-- Whether a response type streams progress up to a final flag: it has
both a ProgressMessage string and a Final boolean. -/
def StructDecl.streamsProgress (d : StructDecl) : Bool :=
  d.hasField "ProgressMessage" "string" && d.hasField "Final" "bool"

/-- The six image/patch operations of the RPC surface, each with the name
under which messages.go declares its request and response. -/
def imagePatchOperations : List (String × String) := [
  ("replace-image", "ReplaceVmImage"),
  ("patch-image", "PatchVmImage"),
  ("debug-image", "DebugVmImage"),
  ("replace-user-data", "ReplaceVmUserData"),
  ("discard-old-image", "DiscardVmOldImage"),
  ("discard-old-user-data", "DiscardVmOldUserData")
]

/-- Whether the response type of the call of that name streams progress. -/
def responseStreamsProgress (call : String) : Bool :=
  match findStruct (call ++ "Response") with
  | some d => d.streamsProgress
  | none => false

/-- Whether a Go type is a pointer type. -/
def isPointer (goType : String) : Bool :=
  startsIn "*" goType

/-- Whether the field is a presence flag of the declaration: a boolean
named Have followed by the name of another field of the declaration. -/
def StructDecl.isPresenceFlag (d : StructDecl) (f : Field) : Bool :=
  f.goType == "bool" && d.fields.any (fun g => f.name == "Have" ++ g.name)

/-- The payload fields: the fields that are not presence flags. -/
def StructDecl.payloadFields (d : StructDecl) : List Field :=
  d.fields.filter (fun f => !d.isPresenceFlag f)

/-- Whether a field has an explicit presence indicator: a companion
boolean Have flag in the declaration, or a pointer type. -/
def StructDecl.hasPresenceIndicator (d : StructDecl) (f : Field) : Bool :=
  d.hasField ("Have" ++ f.name) "bool" || isPointer f.goType

/-- The declaration of the incremental Update event (lines 429 to 445). -/
def updateDecl : StructDecl :=
  struct "Update" "" [
    fld "HaveAddressPool" "bool",
    fld "AddressPool" "[]Address",
    fld "HaveDisabled" "bool",
    fld "Disabled" "bool",
    fld "MemoryInMiB" "*uint64",
    fld "NumCPUs" "*uint",
    fld "NumFreeAddresses" "map[string]uint",
    fld "HealthStatus" "string",
    fld "HaveSerialNumber" "bool",
    fld "SerialNumber" "string",
    fld "HaveSubnets" "bool",
    fld "Subnets" "[]Subnet",
    fld "TotalVolumeBytes" "*uint64",
    fld "HaveVMs" "bool",
    fld "VMs" "map[string]*VmInfo"]

/-- The payload fields of Update without a presence indicator. -/
def updateFieldsWithoutIndicator : List Field :=
  updateDecl.payloadFields.filter
    (fun f => !updateDecl.hasPresenceIndicator f)

/-- A mutation of the RPC surface: the name the interface list gives it,
and the verb and the property word by which a message of messages.go for it
is recognised. -/
structure Mutation where
  label : String
  verb : String
  word : String
  deriving DecidableEq, Repr

/-- The mutations the RPC surface lists. -/
def mutations : List Mutation := [
  ⟨"change owners", "Change", "Owner"⟩,
  ⟨"change tags", "Change", "Tags"⟩,
  ⟨"change CPU priority", "Change", "CpuPriority"⟩,
  ⟨"change size", "Change", "VmSize"⟩,
  ⟨"change subnet", "Change", "Subnet"⟩,
  ⟨"change console type", "Change", "ConsoleType"⟩,
  ⟨"change destroy-protection", "Change", "DestroyProtection"⟩,
  ⟨"change machine type", "Change", "MachineType"⟩,
  ⟨"change watchdog", "Change", "Watchdog"⟩,
  ⟨"change volume interfaces", "Change", "VolumeInterfaces"⟩,
  ⟨"change volume size", "Change", "VolumeSize"⟩,
  ⟨"change volume order", "Reorder", "Volumes"⟩,
  ⟨"add volumes", "Add", "Volumes"⟩,
  ⟨"delete volume", "Delete", "Volume"⟩
]

/-- The name without its last n characters. -/
def dropEnd (n : Nat) (name : String) : String :=
  ⟨name.data.take (name.data.length - n)⟩

/-- The calls of messages.go that serve a mutation: the names X such that
XRequest and XResponse are both declared, X starts with the verb of the
mutation and contains its property word. -/
def Mutation.calls (m : Mutation) : List String :=
  (messages.filter (fun d =>
    endsIn "Request" d.name && startsIn m.verb d.name &&
    containsWord m.word d.name &&
    (findStruct (dropEnd 7 d.name ++ "Response")).isSome)).map
    (fun d => dropEnd 7 d.name)

/-- The structs, of any kind, whose name contains the word. -/
def structsMentioning (word : String) : List String :=
  (messages.filter (fun d => containsWord word d.name)).map (fun d => d.name)

/-- The operations that need the access token as a credential, each with
the name of its request type. -/
def destructiveRequests : List (String × String) := [
  ("destroy VM", "DestroyVmRequest"),
  ("delete a volume", "DeleteVmVolumeRequest"),
  ("reorder volumes", "ReorderVmVolumesRequest"),
  ("copy a VM", "CopyVmRequest")
]

/-- The fields of the struct of that name, none when it is not declared. -/
def fieldsOf (struct : String) : Option (List Field) :=
  (findStruct struct).map (fun d => d.fields)

/-- The reply of the caller that drives a migration (lines 598 to 600). -/
structure MigrateVmResponseResponse where
  Commit : Bool
  deriving DecidableEq, Repr

/-- The response types documented as sent several times per call. -/
def multiResponseTypes : List StructDecl :=
  messages.filter (fun d => d.comment == "Multiple responses are sent.")

/-! ## Lifecycle state machine

messages.go declares the State constants and the VmInfo record; the handlers
that move a VM from one state to another are not part of it.  The registry
and its transition table below follow sections 3 and 4.1 of the
specification.
-/

/-- The lifecycle states, one for each State constant. -/
inductive State
  | Starting | Running | FailedToStart | Stopping | Stopped | Destroying
  | Migrating | Exporting | Crashed | Debugging
  deriving DecidableEq, Repr

/-- The value of the State constant of a lifecycle state. -/
def State.code : State → Nat
  | .Starting => StateStarting
  | .Running => StateRunning
  | .FailedToStart => StateFailedToStart
  | .Stopping => StateStopping
  | .Stopped => StateStopped
  | .Destroying => StateDestroying
  | .Migrating => StateMigrating
  | .Exporting => StateExporting
  | .Crashed => StateCrashed
  | .Debugging => StateDebugging

/-- The side of a migration an agent is on. -/
inductive Direction
  | source | destination
  deriving DecidableEq, Repr

/-- Modelled from the spec: the migration record of a VM entry (section 3).
The peer identity and the handshake phase are not consulted by the
transition table and are left out. -/
structure Migration where
  direction : Direction
  deriving DecidableEq, Repr

/-- Modelled from the spec: the descriptive snapshot of a VM entry
(section 3, info), with the fields the state machine reads or that a
mutation may write. -/
structure Info where
  hostname : String
  memoryInMiB : Nat
  milliCPUs : Nat
  ownerUsers : List String
  tags : List (String × String)
  subnetId : String
  destroyProtection : Bool
  deriving DecidableEq, Repr

/-- Modelled from the spec: the VM entry of section 3, keyed by its
address.  The registry code is not in the source. -/
structure VmEntry where
  address : Nat
  state : State
  info : Info
  volumes : List Nat
  uncommitted : Bool
  migration : Option Migration
  deriving DecidableEq, Repr

/-- What a row of the transition table leads to: a state, or the removal of
the entry from the registry. -/
inductive Outcome
  | state (s : State)
  | removed
  deriving DecidableEq, Repr

/-- Modelled from the spec: the triggers named in the table of section
4.1.  A row the table lists without a trigger is requested by naming its
result. -/
inductive Trigger
  | bootSucceeds | bootFails
  | stopRequested | migrationAccepted | exportRequested | healthCheckFails
  | debugImageRequested
  | stopCompletes
  | startRequested | destroyRequested
  | peerCommits | peerAborts
  | exportCompletes | exportCancelled
  | unnamed (result : Outcome)
  deriving DecidableEq, Repr

/-- The left column of the table: a state, where Migrating is split by the
side of the migration. -/
inductive Source
  | inState (s : State)
  | migratingSource
  | migratingDestination
  deriving DecidableEq, Repr

/-- Whether a VM entry is in the situation a table row starts from. -/
def Source.admits (src : Source) (vm : VmEntry) : Bool :=
  match src with
  | .inState s => vm.state == s && !(s == State.Migrating)
  | .migratingSource =>
    vm.state == State.Migrating && vm.migration == some ⟨Direction.source⟩
  | .migratingDestination =>
    vm.state == State.Migrating &&
      vm.migration == some ⟨Direction.destination⟩ && vm.uncommitted

/-- A row of the transition table. -/
structure Edge where
  source : Source
  trigger : Trigger
  result : Outcome
  deriving DecidableEq, Repr

/-- Modelled from the spec: the transition table of section 4.1, row by
row.  The state machine code is not in the source. -/
def transitionTable : List Edge := [
  ⟨.inState .Starting, .bootSucceeds, .state .Running⟩,
  ⟨.inState .Starting, .bootFails, .state .FailedToStart⟩,
  ⟨.inState .Running, .stopRequested, .state .Stopping⟩,
  ⟨.inState .Running, .migrationAccepted, .state .Migrating⟩,
  ⟨.inState .Running, .exportRequested, .state .Exporting⟩,
  ⟨.inState .Running, .healthCheckFails, .state .Crashed⟩,
  ⟨.inState .Running, .debugImageRequested, .state .Debugging⟩,
  ⟨.inState .Stopping, .stopCompletes, .state .Stopped⟩,
  ⟨.inState .Stopped, .startRequested, .state .Starting⟩,
  ⟨.inState .Stopped, .destroyRequested, .state .Destroying⟩,
  ⟨.inState .FailedToStart, .unnamed (.state .Destroying),
    .state .Destroying⟩,
  ⟨.inState .Crashed, .unnamed (.state .Stopping), .state .Stopping⟩,
  ⟨.inState .Crashed, .unnamed (.state .Destroying), .state .Destroying⟩,
  ⟨.inState .Debugging, .unnamed (.state .Running), .state .Running⟩,
  ⟨.inState .Debugging, .unnamed (.state .Destroying), .state .Destroying⟩,
  ⟨.migratingSource, .peerCommits, .state .Destroying⟩,
  ⟨.migratingSource, .peerAborts, .state .Running⟩,
  ⟨.migratingDestination, .peerCommits, .state .Starting⟩,
  ⟨.migratingDestination, .peerAborts, .removed⟩,
  ⟨.inState .Exporting, .exportCompletes, .state .Running⟩,
  ⟨.inState .Exporting, .exportCancelled, .state .Running⟩,
  ⟨.inState .Destroying, .unnamed .removed, .removed⟩
]

/-- Whether the table has a row from the situation of the VM, under the
trigger, to the result. -/
def onTable (vm : VmEntry) (t : Trigger) (result : Outcome) : Bool :=
  transitionTable.any
    (fun e => e.source.admits vm && e.trigger == t && e.result == result)

/-- The result the table gives for a VM and a trigger, none when no row
applies. -/
def tableResult (vm : VmEntry) (t : Trigger) : Option Outcome :=
  (transitionTable.find?
    (fun e => e.source.admits vm && e.trigger == t)).map (fun e => e.result)

/-- The registry: the table of the VMs resident on the host. -/
abbrev Registry := List VmEntry

/-- The entry at an address, none when there is no such VM. -/
def lookup (reg : Registry) (a : Nat) : Option VmEntry :=
  reg.find? (fun v => v.address == a)

/-- The registry with the entry at an address replaced. -/
def store (reg : Registry) (a : Nat) (vm : VmEntry) : Registry :=
  reg.map (fun v => if v.address == a then vm else v)

/-- The registry without the entry at an address. -/
def remove (reg : Registry) (a : Nat) : Registry :=
  reg.filter (fun v => !(v.address == a))

/-- The entry after a transition to a state: the migration record is
present exactly in Migrating (entered on the source side only), and an entry
that leaves Migrating is committed. -/
def VmEntry.enter (vm : VmEntry) (s : State) : VmEntry :=
  { vm with
    state := s
    migration := if s = State.Migrating then some ⟨Direction.source⟩ else none
    uncommitted := vm.uncommitted && !(vm.state == State.Migrating) }

/-- Whether the destroy-protection flag forbids the trigger: a protected VM
is neither destroyed nor accepted as a migration source. -/
def protectionForbids (vm : VmEntry) (t : Trigger) : Bool :=
  vm.info.destroyProtection &&
    (t == Trigger.destroyRequested || t == Trigger.migrationAccepted)

/-- The answer to a transition request. -/
inductive Answer
  | notFound
  | unauthorized
  | invalidState
  | newState (s : State)
  | removed
  deriving DecidableEq, Repr

/-- Whether the answer is a rejection of the request. -/
def Answer.rejected : Answer → Bool
  | .notFound => true
  | .unauthorized => true
  | .invalidState => true
  | .newState _ => false
  | .removed => false

/-- Modelled from the spec: applyTransition of section 4.1, in the
validation order given there: resolve the VM, check destroy protection,
check the current state against the table, apply the transition.  The state
machine code is not in the source. -/
def applyTransition (reg : Registry) (a : Nat) (t : Trigger) :
    Registry × Answer :=
  match lookup reg a with
  | none => (reg, .notFound)
  | some vm =>
    if protectionForbids vm t then (reg, .unauthorized)
    else
      match tableResult vm t with
      | none => (reg, .invalidState)
      | some (.state s) => (store reg a (vm.enter s), .newState s)
      | some .removed => (remove reg a, .removed)

/-! ## Multi-response calls -/

/-- The fields the six multi-response types have in common. -/
structure StreamResponse where
  Error : String
  Final : Bool
  ProgressMessage : String
  deriving DecidableEq, Repr

/-- Modelled from the spec: the handlers that send the responses of a
multi-response call are not in the source.  A call emits a sequence of
progress responses and then one final response, which carries the error
indicator; nothing follows it. -/
def sendResponses (progress : List String) (error : String) :
    List StreamResponse :=
  progress.map (fun m => ⟨"", false, m⟩) ++ [⟨error, true, ""⟩]

/-! ## Sample data -/

/-- A committed VM in state Running at address 7. -/
def sampleVm : VmEntry :=
  ⟨7, .Running, ⟨"build-host", 2048, 1000, ["alice"], [("role", "ci")],
    "subnet0", false⟩, [16, 64], false, none⟩

/-- A registry with the sample VM and a stopped VM at address 9. -/
def sampleRegistry : Registry :=
  [sampleVm,
   ⟨9, .Stopped, ⟨"idle-host", 1024, 500, ["bob"], [], "subnet0", true⟩,
     [8], false, none⟩]

/-! ## Lock manager

messages.go declares the request that holds the lock of a VM
(HoldVmLockRequest: IpAddress, Timeout, WriteLock); the lock manager itself
is not part of it.  The lock table below follows sections 3 and 4.3 of the
specification.
-/

/-- Modelled from the spec: the lock of one VM (section 3), as the numbers
of outstanding shared and exclusive holders.  The lock manager code is not
in the source. -/
structure VmLock where
  shared : Nat
  exclusive : Nat
  deriving DecidableEq, Repr

/-- Modelled from the spec: the grant rule of section 4.3.  An exclusive
acquisition is granted only when there is no shared and no exclusive
holder, a shared one only when there is no exclusive holder. -/
def VmLock.grants (l : VmLock) (writeLock : Bool) : Bool :=
  if writeLock then l.shared == 0 && l.exclusive == 0
  else l.exclusive == 0

/-- The lock after an acquisition attempt, with whether it was granted; a
refused attempt (busy) leaves the lock as it was. -/
def VmLock.acquire (l : VmLock) (writeLock : Bool) : VmLock × Bool :=
  if l.grants writeLock then
    (if writeLock then ⟨l.shared, l.exclusive + 1⟩
      else ⟨l.shared + 1, l.exclusive⟩, true)
  else (l, false)

/-- The lock after a holder of the given mode lets go. -/
def VmLock.release (l : VmLock) (writeLock : Bool) : VmLock :=
  if writeLock then ⟨l.shared, l.exclusive - 1⟩
  else ⟨l.shared - 1, l.exclusive⟩

/-- The lock table: the lock of every VM, by address. -/
abbrev LockTable := Nat → VmLock

/-- The lock table of a host on which nothing is held. -/
def noLocks : LockTable := fun _ => ⟨0, 0⟩

/-- What happens at the lock manager: a hold request for a VM (the
IpAddress and WriteLock of HoldVmLockRequest), or a holder letting go. -/
inductive LockEvent
  | hold (ipAddress : Nat) (writeLock : Bool)
  | release (ipAddress : Nat) (writeLock : Bool)
  deriving DecidableEq, Repr

/-- The lock table after one event. -/
def lockStep (t : LockTable) : LockEvent → LockTable
  | .hold a w => fun b => if b = a then ((t a).acquire w).1 else t b
  | .release a w => fun b => if b = a then (t a).release w else t b

/-- The lock table after a sequence of events. -/
def lockRun (t : LockTable) (events : List LockEvent) : LockTable :=
  events.foldl lockStep t

/-- The exclusion property of one lock: at most one exclusive holder, and
no shared holder beside it. -/
def VmLock.exclusionHolds (l : VmLock) : Prop :=
  l.exclusive ≤ 1 ∧ (l.exclusive = 1 → l.shared = 0)

end Hypervisor

namespace Imagetool

/-!
# The imagetool command (cmd/imagetool/main.go)
-/

/-! ## The list selector -/

/-- The ListSelector constants of lib/filesystem that makeListSelector
uses.  Their declaration is not in the source; they are taken as given. -/
structure ListSelectors where
  ListSelectAll : Nat
  ListSelectSkipMode : Nat
  ListSelectSkipNumLinks : Nat
  ListSelectSkipUid : Nat
  ListSelectSkipGid : Nat
  ListSelectSkipSizeDevnum : Nat
  ListSelectSkipMtime : Nat
  ListSelectSkipName : Nat
  ListSelectSkipData : Nat
  deriving DecidableEq, Repr

/-- The body of the loop of makeListSelector: the switch on one character
of the argument, applied to the mask so far. -/
def switchChar (K : ListSelectors) (mask : Nat) (char : Char) : Nat :=
  if char = 'm' then mask ||| K.ListSelectSkipMode
  else if char = 'l' then mask ||| K.ListSelectSkipNumLinks
  else if char = 'u' then mask ||| K.ListSelectSkipUid
  else if char = 'g' then mask ||| K.ListSelectSkipGid
  else if char = 's' then mask ||| K.ListSelectSkipSizeDevnum
  else if char = 't' then mask ||| K.ListSelectSkipMtime
  else if char = 'n' then mask ||| K.ListSelectSkipName
  else if char = 'd' then mask ||| K.ListSelectSkipData
  else mask

/-- The loop of makeListSelector over the characters of the argument. -/
def makeListSelectorLoop (K : ListSelectors) : List Char → Nat → Nat
  | [], mask => mask
  | char :: rest, mask => makeListSelectorLoop K rest (switchChar K mask char)

/-- The function makeListSelector of main.go (lines 263 to 286). -/
def makeListSelector (K : ListSelectors) (arg : String) : Nat :=
  makeListSelectorLoop K arg.data K.ListSelectAll

/-- The SkipFields section of printUsage (lines 131 to 139): each letter
with the field it is documented to skip. -/
def skipFieldsUsage : List (Char × String) := [
  ('m', "mode"),
  ('l', "number of hardlinks"),
  ('u', "UID"),
  ('g', "GID"),
  ('s', "size/Rdev"),
  ('t', "time of last modification"),
  ('n', "name"),
  ('d', "data (hash or symlink target)")
]

/-- The skip flag of a documented field. -/
def flagOfField (K : ListSelectors) (field : String) : Nat :=
  if field = "mode" then K.ListSelectSkipMode
  else if field = "number of hardlinks" then K.ListSelectSkipNumLinks
  else if field = "UID" then K.ListSelectSkipUid
  else if field = "GID" then K.ListSelectSkipGid
  else if field = "size/Rdev" then K.ListSelectSkipSizeDevnum
  else if field = "time of last modification" then K.ListSelectSkipMtime
  else if field = "name" then K.ListSelectSkipName
  else if field = "data (hash or symlink target)" then K.ListSelectSkipData
  else 0

/-- The skip flag the usage text documents for a character: the flag of the
field listed under that letter, and nothing for any other character. -/
def documentedFlag (K : ListSelectors) (char : Char) : Nat :=
  match skipFieldsUsage.lookup char with
  | some field => flagOfField K field
  | none => 0

/-- The selector as the usage text describes it: ListSelectAll with the
documented flag of each character of the argument or-ed in. -/
def documentedSelector (K : ListSelectors) (arg : String) : Nat :=
  arg.data.foldl (fun mask char => mask ||| documentedFlag K char)
    K.ListSelectAll

/-! ## doMain -/

/-- One second, one minute (time.Second, time.Minute), in nanoseconds. -/
def Second : Int := 1000000000

def Minute : Int := 60 * Second

/-- The variable minimumExpiration of main.go (line 98). -/
def minimumExpiration : Int := 15 * Minute

/-- The least value of a time.Duration, a signed 64-bit integer. -/
def minDuration : Int := -9223372036854775808

/-- The greatest value of a time.Duration. -/
def maxDuration : Int := 9223372036854775807

/-- What doMain reads from the command line and from the calls it makes:
whether loading the flags fails; the status with which flag.Parse ends the
process, if it does (a flag it cannot parse, a request for help); the
positional arguments; the duration the command line gives for expiresIn, in
nanoseconds (0 when absent); the flags skipFields and filterFile; whether
each later fallible call fails; and, of commands.RunCommands, which is not
in the source, the status it returns and whether it runs a subcommand. -/
structure Invocation where
  loadFlagsFails : Bool
  parseExits : Option Int
  args : List String
  expiresIn : Int
  skipFields : String
  filterFile : String
  filterLoadFails : Bool
  setupTlsFails : Bool
  dialerFails : Bool
  runCommands : Int
  runsSubcommand : Bool
  deriving DecidableEq, Repr

/-- The call flag.Parse of doMain (line 296): the status with which it ends
the process, none when the flags parse.  A duration that does not fit a
time.Duration is a flag that cannot be parsed, and ends the process with
status 2. -/
def flagParse (inv : Invocation) : Option Int :=
  match inv.parseExits with
  | some status => some status
  | none =>
    if inv.expiresIn < minDuration ∨ maxDuration < inv.expiresIn then some 2
    else none

/-- The places at which a run of doMain ends: the return statements of
doMain in source order, with the end of the process inside flag.Parse. -/
inductive Stage
  | loadFlags
  | parse
  | usage
  | expiration
  | filter
  | setupTls
  | dialer
  | commands
  deriving DecidableEq, Repr

/-- What a run of doMain amounts to: the exit status, the place at which
it ended (commands when commands.RunCommands was called), whether a
subcommand was run, and the list selector it has set, if it got that far. -/
structure MainResult where
  status : Int
  stage : Stage
  ranSubcommand : Bool
  listSelector : Option Nat
  deriving DecidableEq, Repr

/-- The function doMain of main.go (lines 290 to 328). -/
def doMain (K : ListSelectors) (inv : Invocation) : MainResult :=
  if inv.loadFlagsFails then ⟨1, .loadFlags, false, none⟩
  else
    match flagParse inv with
    | some status => ⟨status, .parse, false, none⟩
    | none =>
      if inv.args.length < 1 then ⟨2, .usage, false, none⟩
      else if inv.expiresIn > 0 ∧ inv.expiresIn < minimumExpiration then
        ⟨2, .expiration, false, none⟩
      else
        let listSelector := makeListSelector K inv.skipFields
        if inv.filterFile ≠ "" ∧ inv.filterLoadFails then
          ⟨2, .filter, false, some listSelector⟩
        else if inv.setupTlsFails then
          ⟨1, .setupTls, false, some listSelector⟩
        else if inv.dialerFails then ⟨1, .dialer, false, some listSelector⟩
        else
          ⟨inv.runCommands, .commands, inv.runsSubcommand,
            some listSelector⟩

/-! ## The subcommands table -/

/-- An entry of the subcommands table: the command, its usage text, the
least and the greatest number of arguments (-1 for no limit), and the name
of the function that runs it. -/
structure Command where
  command : String
  args : String
  minArgs : Int
  maxArgs : Int
  cmdFunc : String
  deriving DecidableEq, Repr

/-- The entries of the subcommands table from add to diff. -/
def subcommands1 : List Command := [
  ⟨"add", "                    name imagefile filterfile triggerfile", 4, 4,
    "addImagefileSubcommand"⟩,
  ⟨"addi", "                   name imagename filterfile triggerfile", 4, 4,
    "addImageimageSubcommand"⟩,
  ⟨"addrep", "                 name baseimage layerimage...", 3, (-1),
    "addReplaceImageSubcommand"⟩,
  ⟨"adds", "                   name subname filterfile triggerfile", 4, 4,
    "addImagesubSubcommand"⟩,
  ⟨"analyse-file-system", "    directory", 1, 1,
    "analyseFileSystemSubcommand"⟩,
  ⟨"bulk-addrep", "            layerimage...", 1, (-1),
    "bulkAddReplaceImagesSubcommand"⟩,
  ⟨"change-image-expiration", "name", 1, 1,
    "changeImageExpirationSubcommand"⟩,
  ⟨"check", "                  name", 1, 1,
    "checkImageSubcommand"⟩,
  ⟨"check-directory", "        dirname", 1, 1,
    "checkDirectorySubcommand"⟩,
  ⟨"chown", "                  dirname ownerGroup", 2, 2,
    "chownDirectorySubcommand"⟩,
  ⟨"copy", "                   name oldimagename", 2, 2,
    "copyImageSubcommand"⟩,
  ⟨"copy-filtered-files", "    name srcdir destdir", 3, 3,
    "copyFilteredFilesSubcommand"⟩,
  ⟨"delete", "                 name", 1, 1,
    "deleteImageSubcommand"⟩,
  ⟨"delunrefobj", "            percentage bytes", 2, 2,
    "deleteUnreferencedObjectsSubcommand"⟩,
  ⟨"diff", "                   tool left right", 3, 3,
    "diffSubcommand"⟩
]

/-- The entries of the subcommands table from diff-build-logs to get-replication-master. -/
def subcommands2 : List Command := [
  ⟨"diff-build-logs", "        tool left right", 3, 3,
    "diffBuildLogsInImagesSubcommand"⟩,
  ⟨"diff-files", "             tool left right filename", 4, 4,
    "diffFileInImagesSubcommand"⟩,
  ⟨"diff-filters", "           tool left right", 3, 3,
    "diffFilterInImagesSubcommand"⟩,
  ⟨"diff-package-lists", "     tool left right", 3, 3,
    "diffImagePackageListsSubcommand"⟩,
  ⟨"diff-triggers", "          tool left right", 3, 3,
    "diffTriggersInImagesSubcommand"⟩,
  ⟨"estimate-usage", "         name", 1, 1,
    "estimateImageUsageSubcommand"⟩,
  ⟨"find-latest-image", "      directory", 1, 1,
    "findLatestImageSubcommand"⟩,
  ⟨"get", "                    name directory", 2, 2,
    "getImageSubcommand"⟩,
  ⟨"get-archive-data", "       name outfile", 2, 2,
    "getImageArchiveDataSubcommand"⟩,
  ⟨"get-build-log", "          name [outfile]", 1, 2,
    "getImageBuildLogSubcommand"⟩,
  ⟨"get-file-in-image", "      name imageFile [outfile]", 2, 3,
    "getFileInImageSubcommand"⟩,
  ⟨"get-image-expiration", "   name", 1, 1,
    "getImageExpirationSubcommand"⟩,
  ⟨"get-image-updates", "", 0, 0,
    "getImageUpdatesSubcommand"⟩,
  ⟨"get-package-list", "       name [outfile]", 1, 2,
    "getImagePackageListSubcommand"⟩,
  ⟨"get-replication-master", "", 0, 0,
    "getReplicationMasterSubcommand"⟩
]

/-- The entries of the subcommands table from list to show. -/
def subcommands3 : List Command := [
  ⟨"list", "", 0, 0,
    "listImagesSubcommand"⟩,
  ⟨"list-mdb", "", 0, 0,
    "listMdbImagesSubcommand"⟩,
  ⟨"list-not-in-mdb", "", 0, 0,
    "listImagesNotInMdbSubcommand"⟩,
  ⟨"listdirs", "", 0, 0,
    "listDirectoriesSubcommand"⟩,
  ⟨"listunrefobj", "", 0, 0,
    "listUnreferencedObjectsSubcommand"⟩,
  ⟨"make-raw-image", "         name rawfile", 2, 2,
    "makeRawImageSubcommand"⟩,
  ⟨"match-triggers", "         name triggers-file", 2, 2,
    "matchTriggersSubcommand"⟩,
  ⟨"merge-filters", "          filter-file...", 1, (-1),
    "mergeFiltersSubcommand"⟩,
  ⟨"merge-triggers", "         triggers-file...", 1, (-1),
    "mergeTriggersSubcommand"⟩,
  ⟨"mkdir", "                  name", 1, 1,
    "makeDirectorySubcommand"⟩,
  ⟨"patch-directory", "        name directory", 2, 2,
    "patchDirectorySubcommand"⟩,
  ⟨"restore-from-file", "      filename", 1, 1,
    "restoreImageSubcommand"⟩,
  ⟨"save-to-file", "           name [outfile]", 1, 2,
    "saveImageSubcommand"⟩,
  ⟨"scan-filtered-files", "    name directory", 2, 2,
    "scanFilteredFilesSubcommand"⟩,
  ⟨"show", "                   name", 1, 1,
    "showImageSubcommand"⟩
]

/-- The entries of the subcommands table from show-bad-computed-files to wait. -/
def subcommands4 : List Command := [
  ⟨"show-bad-computed-files", "", 0, 0,
    "showBadComputedFilesSubcommand"⟩,
  ⟨"show-bad-image-subs", "", 0, 0,
    "showBadImageSubsSubcommand"⟩,
  ⟨"show-computed-file-subs", "filename source", 2, 2,
    "showComputedFileSubsSubcommand"⟩,
  ⟨"show-filter", "            name", 1, 1,
    "showImageFilterSubcommand"⟩,
  ⟨"show-inode", "             name inodePath", 2, 2,
    "showImageInodeSubcommand"⟩,
  ⟨"show-metadata", "          name", 1, 1,
    "showImageMetadataSubcommand"⟩,
  ⟨"show-triggers", "          name", 1, 1,
    "showImageTriggersSubcommand"⟩,
  ⟨"showunrefobj", "", 0, 0,
    "showUnreferencedObjectsSubcommand"⟩,
  ⟨"tar", "                    name [file]", 1, 2,
    "tarImageSubcommand"⟩,
  ⟨"test-download-speed", "    name", 1, 1,
    "testDownloadSpeedSubcommand"⟩,
  ⟨"trace-inode-history", "    name inodePath", 2, 2,
    "traceInodeHistorySubcommand"⟩,
  ⟨"wait", "                   name", 1, 1,
    "waitImageSubcommand"⟩
]

/-- The subcommands table of main.go (lines 142 to 224), in source order. -/
def subcommands : List Command :=
  subcommands1 ++ subcommands2 ++ subcommands3 ++ subcommands4

/-- The words of a text: its maximal runs of characters other than the
space, in order.  The second argument collects the current word. -/
def wordsFrom : List Char → List Char → List String
  | [], word => if word.isEmpty then [] else [⟨word.reverse⟩]
  | c :: rest, word =>
    if c = ' ' then
      if word.isEmpty then wordsFrom rest []
      else ⟨word.reverse⟩ :: wordsFrom rest []
    else wordsFrom rest (c :: word)

/-- The argument names of a usage text. -/
def argumentNames (usage : String) : List String :=
  wordsFrom usage.data []

/-- Whether an argument name is bracketed, that is, optional. -/
def isBracketed (name : String) : Bool :=
  name.data.head? == some '[' && name.data.getLast? == some ']'

/-- Whether an argument name ends in three dots. -/
def isRepeated (name : String) : Bool :=
  "...".data.reverse.isPrefixOf name.data.reverse

/-- The number of argument names of the usage text that are not bracketed. -/
def Command.requiredNames (c : Command) : Nat :=
  ((argumentNames c.args).filter (fun n => !isBracketed n)).length

/-- The number of bracketed argument names of the usage text. -/
def Command.optionalNames (c : Command) : Nat :=
  ((argumentNames c.args).filter isBracketed).length

/-- Whether the last argument name of the usage text ends in three dots. -/
def Command.lastRepeated (c : Command) : Bool :=
  match (argumentNames c.args).getLast? with
  | some n => isRepeated n
  | none => false

/-! ## The image server clients -/

/-- A connection made by srpc.DialHTTPWithDialer: the address that was
dialed and a number that tells connections apart. -/
structure SrpcClient where
  address : String
  serial : Nat
  deriving DecidableEq, Repr

/-- An object client of lib/objectserver/client, which is not in the
source: it is represented by the srpc client it was attached to, nil
included. -/
structure ObjectClient where
  client : Option SrpcClient
  deriving DecidableEq, Repr

/-- The call objectclient.AttachObjectClient. -/
def AttachObjectClient (client : Option SrpcClient) : ObjectClient :=
  ⟨client⟩

/-- The four client variables of main.go (lines 226 to 231). -/
structure Globals where
  imageSrpcClient : Option SrpcClient
  masterImageSrpcClient : Option SrpcClient
  theObjectClient : Option ObjectClient
  theMasterObjectClient : Option ObjectClient
  deriving DecidableEq, Repr

/-- A pointer to one of the srpc client variables. -/
inductive ClientSlot
  | imageSrpcClient
  | masterImageSrpcClient
  deriving DecidableEq, Repr

/-- A pointer to one of the object client variables. -/
inductive ObjectSlot
  | theObjectClient
  | theMasterObjectClient
  deriving DecidableEq, Repr

/-- The value a client pointer points to. -/
def Globals.client (g : Globals) : ClientSlot → Option SrpcClient
  | .imageSrpcClient => g.imageSrpcClient
  | .masterImageSrpcClient => g.masterImageSrpcClient

/-- The value an object client pointer points to. -/
def Globals.object (g : Globals) : ObjectSlot → Option ObjectClient
  | .theObjectClient => g.theObjectClient
  | .theMasterObjectClient => g.theMasterObjectClient

/-- Assignment through a client pointer. -/
def Globals.setClient (g : Globals) (slot : ClientSlot)
    (c : Option SrpcClient) : Globals :=
  match slot with
  | .imageSrpcClient => { g with imageSrpcClient := c }
  | .masterImageSrpcClient => { g with masterImageSrpcClient := c }

/-- Assignment through an object client pointer. -/
def Globals.setObject (g : Globals) (slot : ObjectSlot)
    (o : Option ObjectClient) : Globals :=
  match slot with
  | .theObjectClient => { g with theObjectClient := o }
  | .theMasterObjectClient => { g with theMasterObjectClient := o }

/-- The flags the client functions read, and the outcome of dialing an
address (none when srpc.DialHTTPWithDialer fails). -/
structure ClientConfig where
  imageServerHostname : String
  masterImageServerHostname : String
  imageServerPortNum : Nat
  dial : String → Option SrpcClient

/-- The address getPointedClients dials: the hostname, a colon, and the
port number in decimal. -/
def clientName (hostname : String) (port : Nat) : String :=
  hostname ++ ":" ++ toString port

/-- The function getPointedClients of main.go (lines 249 to 261).  The
result is the variables afterwards, or the exit status 1 when dialing
fails. -/
def getPointedClients (cfg : ClientConfig) (hostname : String)
    (iClient : ClientSlot) (oClient : ObjectSlot) (g : Globals) :
    Except Nat Globals :=
  if (g.client iClient).isNone then
    match cfg.dial (clientName hostname cfg.imageServerPortNum) with
    | none => .error 1
    | some c =>
      let g1 := g.setClient iClient (some c)
      .ok (g1.setObject oClient
        (some (AttachObjectClient g1.imageSrpcClient)))
  else .ok g

/-- The function getClients of main.go (lines 235 to 238): the variables
afterwards and the returned pair. -/
def getClients (cfg : ClientConfig) (g : Globals) :
    Except Nat (Globals × Option SrpcClient × Option ObjectClient) :=
  match getPointedClients cfg cfg.imageServerHostname
      .imageSrpcClient .theObjectClient g with
  | .error status => .error status
  | .ok g1 => .ok (g1, g1.imageSrpcClient, g1.theObjectClient)

/-- The function getMasterClients of main.go (lines 240 to 247). -/
def getMasterClients (cfg : ClientConfig) (g : Globals) :
    Except Nat (Globals × Option SrpcClient × Option ObjectClient) :=
  if cfg.masterImageServerHostname = "" then getClients cfg g
  else
    match getPointedClients cfg cfg.masterImageServerHostname
        .masterImageSrpcClient .theMasterObjectClient g with
    | .error status => .error status
    | .ok g1 => .ok (g1, g1.masterImageSrpcClient, g1.theMasterObjectClient)

/-- A dialer that connects to every address. -/
def dialAny (address : String) : Option SrpcClient :=
  some ⟨address, 1⟩

/-- A configuration with a master image server. -/
def withMaster : ClientConfig :=
  ⟨"localhost", "master", 6971, dialAny⟩

/-- The client variables before any of them is set. -/
def noClients : Globals := ⟨none, none, none, none⟩

/-- Skip flags that are the eight bits of a byte, with ListSelectAll zero. -/
def sampleSelectors : ListSelectors := ⟨0, 1, 2, 4, 8, 16, 32, 64, 128⟩

/-- A run of the list subcommand with an expiresIn of five minutes. -/
def shortExpiry : Invocation :=
  ⟨false, none, ["list"], 5 * Minute, "", "", false, false, false, 0, true⟩

/-- A run with expiresIn left at its default of zero and a first argument
that names no entry of the subcommands table: RunCommands prints the usage
and returns 2, and runs no subcommand. -/
def unknownSubcommand : Invocation :=
  ⟨false, none, ["bogus"], 0, "", "", false, false, false, 2, false⟩

/-- The client variables after getClients has run, for the configuration
with a master image server. -/
def afterGetClients : Globals :=
  ⟨some ⟨"localhost:6971", 1⟩, none,
    some (AttachObjectClient (some ⟨"localhost:6971", 1⟩)), none⟩

end Imagetool


namespace Hypervisor

/-! ## Theorems: the declarations of messages.go -/

/-- C1: the constants whose names begin with State are exactly the ten
lifecycle states, in source order with the values 0 to 9; the values are
pairwise distinct, State is declared as a type, and the ten named constants
are the numbers 0 to 9. -/
theorem state_constants_exactly_ten :
    stateConstants =
      [("StateStarting", 0), ("StateRunning", 1), ("StateFailedToStart", 2),
       ("StateStopping", 3), ("StateStopped", 4), ("StateDestroying", 5),
       ("StateMigrating", 6), ("StateExporting", 7), ("StateCrashed", 8),
       ("StateDebugging", 9)] ∧
    stateConstants.length = 10 ∧
    stateConstants.map Prod.snd = List.range 10 ∧
    (stateConstants.map Prod.snd).Nodup ∧
    (stateConstants.map Prod.fst).Nodup ∧
    [StateStarting, StateRunning, StateFailedToStart, StateStopping,
      StateStopped, StateDestroying, StateMigrating, StateExporting,
      StateCrashed, StateDebugging] = List.range 10 ∧
    ("State", "uint") ∈ namedTypes := by
  decide

/-- C3, as stated, fails: GetCapacityResponse is a struct whose name ends
in Response and it has no field named Error, so not every response type
carries a string field Error. -/
theorem not_every_response_has_error :
    struct "GetCapacityResponse" ""
      [fld "MemoryInMiB" "uint64", fld "NumCPUs" "uint",
       fld "TotalVolumeBytes" "uint64"] ∈ responseTypes ∧
    (struct "GetCapacityResponse" ""
      [fld "MemoryInMiB" "uint64", fld "NumCPUs" "uint",
       fld "TotalVolumeBytes" "uint64"]).hasFieldNamed "Error" = false ∧
    ¬ (∀ d ∈ responseTypes, d.hasField "Error" "string" = true) := by
  decide

/-- C3, amended: a struct whose name ends in Response carries a string
field named Error exactly when it is none of GetCapacityResponse,
ListVMsResponse and MigrateVmResponseResponse; these three have no field
named Error at all. -/
theorem response_has_error_except_three (d : StructDecl)
    (h : d ∈ responseTypes) :
    (d.hasField "Error" "string" = true ↔
      d.name ∉ ["GetCapacityResponse", "ListVMsResponse",
        "MigrateVmResponseResponse"]) ∧
    (d.hasFieldNamed "Error" = true ↔ d.hasField "Error" "string" = true) := by
  revert d
  decide

/-- The amended C3 at DestroyVmResponse. -/
theorem response_has_error_except_three_witness :
    struct "DestroyVmResponse" "" [fld "Error" "string"] ∈ responseTypes ∧
    (((struct "DestroyVmResponse" "" [fld "Error" "string"]).hasField
        "Error" "string" = true ↔
      (struct "DestroyVmResponse" "" [fld "Error" "string"]).name ∉
        ["GetCapacityResponse", "ListVMsResponse",
          "MigrateVmResponseResponse"]) ∧
    ((struct "DestroyVmResponse" "" [fld "Error" "string"]).hasFieldNamed
        "Error" = true ↔
      (struct "DestroyVmResponse" "" [fld "Error" "string"]).hasField
        "Error" "string" = true)) :=
  ⟨by decide, response_has_error_except_three
    (struct "DestroyVmResponse" "" [fld "Error" "string"]) (by decide)⟩

/-- C4, as stated, fails: replace-user-data is one of the six image/patch
operations and its response type ReplaceVmUserDataResponse has neither a
ProgressMessage nor a Final field, so not all six stream progress. -/
theorem not_all_image_operations_stream :
    ("replace-user-data", "ReplaceVmUserData") ∈ imagePatchOperations ∧
    fieldsOf "ReplaceVmUserDataResponse" = some [fld "Error" "string"] ∧
    responseStreamsProgress "ReplaceVmUserData" = false ∧
    ¬ (∀ op ∈ imagePatchOperations, responseStreamsProgress op.2 = true) := by
  decide

/-- C4, amended: of the six image/patch operations, replace-image,
patch-image and debug-image have a response type with both a
ProgressMessage string and a Final boolean; the response types of
replace-user-data, discard-old-image and discard-old-user-data consist of
the Error field alone. -/
theorem image_operations_streaming_split :
    imagePatchOperations.map (fun op => (op.1, responseStreamsProgress op.2)) =
      [("replace-image", true), ("patch-image", true), ("debug-image", true),
       ("replace-user-data", false), ("discard-old-image", false),
       ("discard-old-user-data", false)] ∧
    structHasField "ReplaceVmImageResponse" "ProgressMessage" "string" = true ∧
    structHasField "ReplaceVmImageResponse" "Final" "bool" = true ∧
    structHasField "PatchVmImageResponse" "ProgressMessage" "string" = true ∧
    structHasField "PatchVmImageResponse" "Final" "bool" = true ∧
    structHasField "DebugVmImageResponse" "ProgressMessage" "string" = true ∧
    structHasField "DebugVmImageResponse" "Final" "bool" = true ∧
    fieldsOf "ReplaceVmUserDataResponse" = some [fld "Error" "string"] ∧
    fieldsOf "DiscardVmOldImageResponse" = some [fld "Error" "string"] ∧
    fieldsOf "DiscardVmOldUserDataResponse" = some [fld "Error" "string"] := by
  decide

/-- C5, as stated, fails: HealthStatus is a payload field of Update, it is
a plain string, and Update has no HaveHealthStatus flag, so not every
payload field has a presence indicator. -/
theorem update_health_status_has_no_indicator :
    findStruct "Update" = some updateDecl ∧
    fld "HealthStatus" "string" ∈ updateDecl.payloadFields ∧
    updateDecl.hasFieldNamed "HaveHealthStatus" = false ∧
    isPointer "string" = false ∧
    updateDecl.hasPresenceIndicator (fld "HealthStatus" "string") = false ∧
    ¬ (∀ f ∈ updateDecl.payloadFields,
        updateDecl.hasPresenceIndicator f = true) := by
  decide

/-- C5, amended: the payload fields of Update are the ten fields that are
not Have flags; each of them except NumFreeAddresses (a map) and
HealthStatus (a string) has a companion Have flag or a pointer type, and
these two have neither. -/
theorem update_presence_indicators :
    findStruct "Update" = some updateDecl ∧
    updateDecl.payloadFields.map (fun f => f.name) =
      ["AddressPool", "Disabled", "MemoryInMiB", "NumCPUs",
       "NumFreeAddresses", "HealthStatus", "SerialNumber", "Subnets",
       "TotalVolumeBytes", "VMs"] ∧
    (∀ f ∈ updateDecl.payloadFields,
      (updateDecl.hasPresenceIndicator f = true ↔
        f.name ∉ ["NumFreeAddresses", "HealthStatus"])) ∧
    updateFieldsWithoutIndicator =
      [fld "NumFreeAddresses" "map[string]uint",
       fld "HealthStatus" "string"] := by
  decide

/-- C6, as stated, fails: change watchdog is one of the listed mutations,
and messages.go declares no struct at all whose name contains Watchdog, so
no request and response type serve it. -/
theorem watchdog_has_no_messages :
    (⟨"change watchdog", "Change", "Watchdog"⟩ : Mutation) ∈ mutations ∧
    structsMentioning "Watchdog" = [] ∧
    Mutation.calls ⟨"change watchdog", "Change", "Watchdog"⟩ = [] ∧
    ¬ (∀ m ∈ mutations, m.calls ≠ []) := by
  decide

/-- C6, amended: every listed mutation other than watchdog has a request
type and a matching response type in messages.go, under the names given
here; the watchdog settings appear only as the VmInfo fields WatchdogAction
and WatchdogModel. -/
theorem mutations_have_messages_except_watchdog :
    mutations.map (fun m => (m.label, m.calls)) =
      [("change owners",
         ["ChangeOwners", "ChangeVmOwnerGroups", "ChangeVmOwnerUsers"]),
       ("change tags", ["ChangeVmTags"]),
       ("change CPU priority", ["ChangeVmCpuPriority"]),
       ("change size", ["ChangeVmSize"]),
       ("change subnet", ["ChangeVmSubnet"]),
       ("change console type", ["ChangeVmConsoleType"]),
       ("change destroy-protection", ["ChangeVmDestroyProtection"]),
       ("change machine type", ["ChangeVmMachineType"]),
       ("change watchdog", []),
       ("change volume interfaces", ["ChangeVmVolumeInterfaces"]),
       ("change volume size", ["ChangeVmVolumeSize"]),
       ("change volume order", ["ReorderVmVolumes"]),
       ("add volumes", ["AddVmVolumes"]),
       ("delete volume", ["DeleteVmVolume"])] ∧
    (∀ call ∈ ["ChangeOwners", "ChangeVmOwnerGroups", "ChangeVmOwnerUsers",
        "ChangeVmTags", "ChangeVmCpuPriority", "ChangeVmSize",
        "ChangeVmSubnet", "ChangeVmConsoleType", "ChangeVmDestroyProtection",
        "ChangeVmMachineType", "ChangeVmVolumeInterfaces",
        "ChangeVmVolumeSize", "ReorderVmVolumes", "AddVmVolumes",
        "DeleteVmVolume"],
      (findStruct (call ++ "Request")).isSome = true ∧
      (findStruct (call ++ "Response")).isSome = true) ∧
    structHasField "VmInfo" "WatchdogAction" "WatchdogAction" = true ∧
    structHasField "VmInfo" "WatchdogModel" "WatchdogModel" = true := by
  decide

/-- C7: each of the four destructive requests (DestroyVmRequest,
DeleteVmVolumeRequest, ReorderVmVolumesRequest, CopyVmRequest) carries an
AccessToken byte-string field and the IpAddress of the VM. -/
theorem destructive_requests_carry_token (op : String × String)
    (h : op ∈ destructiveRequests) :
    structHasField op.2 "AccessToken" "[]byte" = true ∧
    structHasField op.2 "IpAddress" "net.IP" = true := by
  revert op
  decide

/-- C7 at the destroy request. -/
theorem destructive_requests_carry_token_witness :
    ("destroy VM", "DestroyVmRequest") ∈ destructiveRequests ∧
    structHasField "DestroyVmRequest" "AccessToken" "[]byte" = true ∧
    structHasField "DestroyVmRequest" "IpAddress" "net.IP" = true :=
  ⟨by decide,
    destructive_requests_carry_token ("destroy VM", "DestroyVmRequest")
      (by decide)⟩

/-- C8: MigrateVmResponse carries a boolean RequestCommit; the reply type
MigrateVmResponseResponse is declared with exactly one field, the boolean
Commit, and every reply is either commit or abort. -/
theorem migration_decide_phase_messages :
    structHasField "MigrateVmResponse" "RequestCommit" "bool" = true ∧
    fieldsOf "MigrateVmResponseResponse" = some [fld "Commit" "bool"] ∧
    (∀ reply : MigrateVmResponseResponse,
      reply = ⟨true⟩ ∨ reply = ⟨false⟩) := by
  refine ⟨by decide, by decide, ?_⟩
  rintro ⟨c⟩
  cases c
  · exact Or.inr rfl
  · exact Or.inl rfl

/-- C10: HoldLockRequest consists of a Timeout duration and a boolean
WriteLock and has no address field; HoldVmLockRequest has the same two
fields and the IpAddress of the VM. -/
theorem lock_requests_fields :
    fieldsOf "HoldLockRequest" =
      some [fld "Timeout" "time.Duration", fld "WriteLock" "bool"] ∧
    fieldsOf "HoldVmLockRequest" =
      some [fld "IpAddress" "net.IP", fld "Timeout" "time.Duration",
        fld "WriteLock" "bool"] ∧
    structHasField "HoldLockRequest" "WriteLock" "bool" = true ∧
    structHasField "HoldLockRequest" "Timeout" "time.Duration" = true ∧
    structHasField "HoldVmLockRequest" "WriteLock" "bool" = true ∧
    structHasField "HoldVmLockRequest" "Timeout" "time.Duration" = true ∧
    structHasField "HoldVmLockRequest" "IpAddress" "net.IP" = true ∧
    structHasField "HoldLockRequest" "IpAddress" "net.IP" = false := by
  decide

/-! ## Theorems: the lifecycle state machine -/

theorem lookup_address {reg : Registry} {a : Nat} {vm : VmEntry}
    (h : lookup reg a = some vm) : vm.address = a := by
  have := List.find?_some h
  simpa using this

theorem lookup_store_same {reg : Registry} {a : Nat} {vm vm' : VmEntry}
    (h : lookup reg a = some vm) (ha : vm'.address = a) :
    lookup (store reg a vm') a = some vm' := by
  induction reg with
  | nil => simp [lookup] at h
  | cons v rest ih =>
    by_cases hv : v.address = a
    · simp [lookup, store, hv, ha]
    · have h' : lookup rest a = some vm := by
        simpa [lookup, List.find?_cons, hv] using h
      have := ih h'
      simpa [lookup, store, List.find?_cons, hv] using this

theorem lookup_store_other {reg : Registry} {a b : Nat} {vm' : VmEntry}
    (hb : b ≠ a) (ha : vm'.address = a) :
    lookup (store reg a vm') b = lookup reg b := by
  induction reg with
  | nil => rfl
  | cons v rest ih =>
    by_cases hv : v.address = a
    · have hvb : ¬ v.address = b := by rw [hv]; exact fun h => hb h.symm
      have hab : ¬ a = b := fun h => hb h.symm
      simpa [lookup, store, List.find?_cons, hv, ha, hvb, hab] using ih
    · by_cases hvb : v.address = b
      · simp [lookup, store, List.find?_cons, hv, hvb, hb]
      · simpa [lookup, store, List.find?_cons, hv, hvb] using ih

theorem lookup_remove_same (reg : Registry) (a : Nat) :
    lookup (remove reg a) a = none := by
  simp [lookup, remove, List.find?_eq_none]

theorem lookup_remove_other {reg : Registry} {a b : Nat} (hb : b ≠ a) :
    lookup (remove reg a) b = lookup reg b := by
  induction reg with
  | nil => rfl
  | cons v rest ih =>
    by_cases hv : v.address = a
    · have hvb : ¬ v.address = b := by rw [hv]; exact fun h => hb h.symm
      have hab : ¬ a = b := fun h => hb h.symm
      simpa [lookup, remove, List.filter_cons, List.find?_cons, hv, hvb, hab]
        using ih
    · by_cases hvb : v.address = b
      · simp [lookup, remove, List.filter_cons, List.find?_cons, hv, hvb, hb]
      · simpa [lookup, remove, List.filter_cons, List.find?_cons, hv, hvb]
          using ih

theorem onTable_of_tableResult {vm : VmEntry} {t : Trigger} {out : Outcome}
    (h : tableResult vm t = some out) : onTable vm t out = true := by
  unfold tableResult at h
  cases hf : transitionTable.find?
      (fun e => e.source.admits vm && e.trigger == t) with
  | none => simp [hf] at h
  | some e =>
    have hmem := List.mem_of_find?_eq_some hf
    have hp := List.find?_some hf
    simp [hf] at h
    unfold onTable
    rw [List.any_eq_true]
    exact ⟨e, hmem, by simp [hp, h]⟩

theorem tableResult_none_of_no_row {vm : VmEntry} {t : Trigger}
    (h : ∀ out, onTable vm t out = false) : tableResult vm t = none := by
  cases hr : tableResult vm t with
  | none => rfl
  | some out =>
    have := onTable_of_tableResult hr
    rw [h out] at this
    exact absurd this (by decide)

theorem admits_same_source {s1 s2 : Source} {vm : VmEntry}
    (h1 : s1.admits vm = true) (h2 : s2.admits vm = true) : s1 = s2 := by
  cases s1 with
  | inState a =>
    cases s2 with
    | inState b =>
      simp [Source.admits] at h1 h2
      rw [← h1.1, ← h2.1]
    | migratingSource =>
      simp [Source.admits] at h1 h2
      exact absurd (h1.1.symm.trans h2.1) h1.2
    | migratingDestination =>
      simp [Source.admits] at h1 h2
      exact absurd (h1.1.symm.trans h2.1.1) h1.2
  | migratingSource =>
    cases s2 with
    | inState b =>
      simp [Source.admits] at h1 h2
      exact absurd (h2.1.symm.trans h1.1) h2.2
    | migratingSource => rfl
    | migratingDestination =>
      simp [Source.admits] at h1 h2
      have := h1.2.symm.trans h2.1.2
      simp at this
  | migratingDestination =>
    cases s2 with
    | inState b =>
      simp [Source.admits] at h1 h2
      exact absurd (h2.1.symm.trans h1.1.1) h2.2
    | migratingSource =>
      simp [Source.admits] at h1 h2
      have := h1.1.2.symm.trans h2.2
      simp at this
    | migratingDestination => rfl

theorem table_functional :
    ∀ e1 ∈ transitionTable, ∀ e2 ∈ transitionTable,
      e1.source = e2.source → e1.trigger = e2.trigger →
      e1.result = e2.result := by
  decide

theorem tableResult_of_onTable {vm : VmEntry} {t : Trigger} {out : Outcome}
    (h : onTable vm t out = true) : tableResult vm t = some out := by
  unfold onTable at h
  rw [List.any_eq_true] at h
  obtain ⟨e, hmem, he⟩ := h
  simp only [Bool.and_eq_true, beq_iff_eq] at he
  obtain ⟨⟨hadm, htr⟩, hres⟩ := he
  unfold tableResult
  cases hf : transitionTable.find?
      (fun e => e.source.admits vm && e.trigger == t) with
  | none =>
    rw [List.find?_eq_none] at hf
    have := hf e hmem
    simp [hadm, htr] at this
  | some e0 =>
    have hmem0 := List.mem_of_find?_eq_some hf
    have hp := List.find?_some hf
    simp only [Bool.and_eq_true, beq_iff_eq] at hp
    have hsrc := admits_same_source hp.1 hadm
    have := table_functional e0 hmem0 e hmem hsrc (hp.2.trans htr.symm)
    simp [this, hres]

/-- The entry after a transition keeps its address and its info. -/
theorem enter_address_info (vm : VmEntry) (s : State) :
    (vm.enter s).address = vm.address ∧ (vm.enter s).info = vm.info ∧
    (vm.enter s).state = s :=
  ⟨rfl, rfl, rfl⟩

/-- C2: for a VM of the registry and any trigger, the entry found at the
address afterwards is the old entry or one whose state the table reaches
from the old situation under that trigger, and the entry is gone only along
a row that removes it; when the table has no row for the situation and the
trigger, the request is rejected and the registry, hence the state and info
of the VM, is what it was; every rejection leaves the registry as it was; a
row of the table is taken unless destroy protection forbids the trigger,
and then the info is kept; no other VM is touched. -/
theorem transitions_follow_table (reg : Registry) (a : Nat) (t : Trigger)
    (vm : VmEntry) (h : lookup reg a = some vm) :
    (∀ vm', lookup (applyTransition reg a t).1 a = some vm' →
      vm' = vm ∨ onTable vm t (.state vm'.state) = true) ∧
    (lookup (applyTransition reg a t).1 a = none →
      onTable vm t .removed = true) ∧
    ((∀ out, onTable vm t out = false) →
      (applyTransition reg a t).2.rejected = true ∧
      (applyTransition reg a t).1 = reg ∧
      lookup (applyTransition reg a t).1 a = some vm) ∧
    ((applyTransition reg a t).2.rejected = true →
      (applyTransition reg a t).1 = reg) ∧
    (∀ s, onTable vm t (.state s) = true →
      protectionForbids vm t = false →
      (applyTransition reg a t).2 = .newState s ∧
      ∃ vm', lookup (applyTransition reg a t).1 a = some vm' ∧
        vm'.state = s ∧ vm'.info = vm.info) ∧
    (∀ b, b ≠ a → lookup (applyTransition reg a t).1 b = lookup reg b) := by
  have haddr := lookup_address h
  by_cases hp : protectionForbids vm t = true
  · have happ : applyTransition reg a t = (reg, .unauthorized) := by
      simp [applyTransition, h, hp]
    rw [happ]
    refine ⟨?_, ?_, ?_, ?_, ?_, ?_⟩
    · intro vm' hv
      rw [h] at hv
      exact Or.inl (Option.some.inj hv).symm
    · intro hn
      rw [h] at hn
      cases hn
    · intro _
      exact ⟨rfl, rfl, h⟩
    · intro _
      rfl
    · intro s _ hnp
      rw [hp] at hnp
      cases hnp
    · intro b _
      rfl
  · have hp' : protectionForbids vm t = false := by
      cases hpf : protectionForbids vm t with
      | true => exact absurd hpf hp
      | false => rfl
    cases hr : tableResult vm t with
    | none =>
      have happ : applyTransition reg a t = (reg, .invalidState) := by
        simp [applyTransition, h, hp', hr]
      rw [happ]
      refine ⟨?_, ?_, ?_, ?_, ?_, ?_⟩
      · intro vm' hv
        rw [h] at hv
        exact Or.inl (Option.some.inj hv).symm
      · intro hn
        rw [h] at hn
        cases hn
      · intro _
        exact ⟨rfl, rfl, h⟩
      · intro _
        rfl
      · intro s hs _
        rw [tableResult_of_onTable hs] at hr
        cases hr
      · intro b _
        rfl
    | some out =>
      have hon := onTable_of_tableResult hr
      cases out with
      | state s0 =>
        have happ : applyTransition reg a t =
            (store reg a (vm.enter s0), .newState s0) := by
          simp [applyTransition, h, hp', hr]
        have hl : lookup (store reg a (vm.enter s0)) a =
            some (vm.enter s0) := lookup_store_same h haddr
        rw [happ]
        refine ⟨?_, ?_, ?_, ?_, ?_, ?_⟩
        · intro vm' hv
          rw [hl] at hv
          have hv' := (Option.some.inj hv).symm
          rw [hv']
          exact Or.inr hon
        · intro hn
          rw [hl] at hn
          cases hn
        · intro hno
          rw [hno _] at hon
          cases hon
        · intro hrej
          simp [Answer.rejected] at hrej
        · intro s hs _
          have := tableResult_of_onTable hs
          rw [hr] at this
          have hs0 : s0 = s := by
            injection this with h1
            injection h1
          subst hs0
          exact ⟨rfl, vm.enter s0, hl, rfl, rfl⟩
        · intro b hb
          exact lookup_store_other hb haddr
      | removed =>
        have happ : applyTransition reg a t = (remove reg a, .removed) := by
          simp [applyTransition, h, hp', hr]
        rw [happ]
        refine ⟨?_, ?_, ?_, ?_, ?_, ?_⟩
        · intro vm' hv
          rw [lookup_remove_same] at hv
          cases hv
        · intro _
          exact hon
        · intro hno
          rw [hno _] at hon
          cases hon
        · intro hrej
          simp [Answer.rejected] at hrej
        · intro s hs _
          have := tableResult_of_onTable hs
          rw [hr] at this
          injection this with h1
          cases h1
        · intro b hb
          exact lookup_remove_other hb

/-! ## Theorems: multi-response calls -/

/-- C9: the response types documented as sent several times are the six
named ones, and each carries a boolean Final; in the sequence a call sends,
exactly one response has Final set, it is the last one, and every response
before it has Final unset. -/
theorem multi_response_final (progress : List String) (error : String) :
    multiResponseTypes.map (fun d => d.name) =
      ["CopyVmResponse", "CreateVmResponse", "DebugVmImageResponse",
       "MigrateVmResponse", "PatchVmImageResponse",
       "ReplaceVmImageResponse"] ∧
    (∀ d ∈ multiResponseTypes, d.hasField "Final" "bool" = true) ∧
    ((sendResponses progress error).filter (fun r => r.Final)).length = 1 ∧
    (sendResponses progress error).getLast? = some ⟨error, true, ""⟩ ∧
    (∀ r ∈ (sendResponses progress error).dropLast, r.Final = false) := by
  refine ⟨by decide, by decide, ?_, ?_, ?_⟩
  · simp [sendResponses, List.filter_append, List.filter_map]
  · simp [sendResponses]
  · simp [sendResponses, List.dropLast_append_of_ne_nil]

/-- C2 at the sample registry: a start request for the running VM at
address 7 has no row in the table, is rejected, and leaves the registry as
it was. -/
theorem transitions_follow_table_witness :
    lookup sampleRegistry 7 = some sampleVm ∧
    (applyTransition sampleRegistry 7 .startRequested).2.rejected = true ∧
    (applyTransition sampleRegistry 7 .startRequested).1 = sampleRegistry ∧
    lookup (applyTransition sampleRegistry 7 .startRequested).1 7 =
      some sampleVm :=
  ⟨by decide,
    (transitions_follow_table sampleRegistry 7 .startRequested sampleVm
      (by decide)).2.2.1
      (by
        intro out
        cases out with
        | state s => cases s <;> decide
        | removed => decide)⟩

/-! ## Theorems: the lock manager -/

theorem acquire_keeps_exclusion (l : VmLock) (w : Bool)
    (h : l.exclusionHolds) : (l.acquire w).1.exclusionHolds := by
  obtain ⟨s, x⟩ := l
  obtain ⟨h1, h2⟩ := h
  simp only at h1 h2
  cases w
  · by_cases he : x = 0
    · subst he
      simp [VmLock.acquire, VmLock.grants, VmLock.exclusionHolds]
    · have hb : (x == 0) = false := by simpa using he
      simp only [VmLock.acquire, VmLock.grants, VmLock.exclusionHolds, hb,
        Bool.false_eq_true, if_false]
      exact ⟨h1, h2⟩
  · by_cases hg : s = 0 ∧ x = 0
    · obtain ⟨rfl, rfl⟩ := hg
      simp [VmLock.acquire, VmLock.grants, VmLock.exclusionHolds]
    · have hb : (s == 0 && x == 0) = false := by
        cases hc : (s == 0 && x == 0) with
        | false => rfl
        | true =>
          simp only [Bool.and_eq_true, beq_iff_eq] at hc
          exact absurd hc hg
      simp only [VmLock.acquire, VmLock.grants, VmLock.exclusionHolds, hb,
        Bool.false_eq_true, if_false, if_true]
      exact ⟨h1, h2⟩

theorem release_keeps_exclusion (l : VmLock) (w : Bool)
    (h : l.exclusionHolds) : (l.release w).exclusionHolds := by
  unfold VmLock.release
  obtain ⟨h1, h2⟩ := h
  cases w <;> simp only [VmLock.exclusionHolds]
  · refine ⟨h1, fun he => ?_⟩
    have := h2 he
    simp [this]
  · simp only [Bool.true_eq_false, if_true]
    refine ⟨by omega, fun he => ?_⟩
    omega

theorem lockStep_keeps_exclusion (t : LockTable) (e : LockEvent)
    (h : ∀ a, (t a).exclusionHolds) : ∀ a, (lockStep t e a).exclusionHolds := by
  intro b
  cases e with
  | hold a w =>
    simp only [lockStep]
    split
    · exact acquire_keeps_exclusion _ _ (h a)
    · exact h b
  | release a w =>
    simp only [lockStep]
    split
    · exact release_keeps_exclusion _ _ (h a)
    · exact h b

theorem lockRun_keeps_exclusion (events : List LockEvent) :
    ∀ t : LockTable, (∀ a, (t a).exclusionHolds) →
      ∀ a, (lockRun t events a).exclusionHolds := by
  induction events with
  | nil => intro t h; exact h
  | cons e rest ih =>
    intro t h
    exact ih (lockStep t e) (lockStep_keeps_exclusion t e h)

/-- C11: in every lock table reached from the empty one by hold requests
and releases, and for every VM, an exclusive acquisition is granted only
when the VM has no shared and no exclusive holder, a shared acquisition
only when it has no exclusive holder, a granted acquisition adds its
holder, and the VM never has more than one exclusive holder nor a shared
holder beside an exclusive one. -/
theorem lock_exclusion (events : List LockEvent) (a : Nat) :
    (((lockRun noLocks events a).acquire true).2 = true →
      (lockRun noLocks events a).shared = 0 ∧
      (lockRun noLocks events a).exclusive = 0) ∧
    (((lockRun noLocks events a).acquire false).2 = true →
      (lockRun noLocks events a).exclusive = 0) ∧
    ((lockRun noLocks events a).shared = 0 →
      (lockRun noLocks events a).exclusive = 0 →
      (lockRun noLocks events a).acquire true =
        (⟨0, 1⟩, true)) ∧
    ((lockRun noLocks events a).exclusive = 0 →
      (lockRun noLocks events a).acquire false =
        (⟨(lockRun noLocks events a).shared + 1, 0⟩, true)) ∧
    (lockRun noLocks events a).exclusive ≤ 1 ∧
    ((lockRun noLocks events a).exclusive = 1 →
      (lockRun noLocks events a).shared = 0) := by
  have hinv := lockRun_keeps_exclusion events noLocks
    (fun _ => ⟨Nat.zero_le 1, fun _ => rfl⟩) a
  generalize lockRun noLocks events a = l at hinv ⊢
  obtain ⟨s, x⟩ := l
  refine ⟨?_, ?_, ?_, ?_, hinv.1, hinv.2⟩
  · intro h
    simp only [VmLock.acquire, VmLock.grants] at h
    by_cases hg : (s == 0 && x == 0) = true
    · simpa using hg
    · simp [hg] at h
  · intro h
    simp only [VmLock.acquire, VmLock.grants] at h
    by_cases hg : (x == 0) = true
    · simpa using hg
    · simp [hg] at h
  · intro hs hx
    simp only at hs hx
    subst hs hx
    rfl
  · intro hx
    simp only at hx
    subst hx
    rfl

end Hypervisor

namespace Imagetool

/-! ## Theorems: the list selector -/

theorem documentedFlag_other (K : ListSelectors) (c : Char)
    (h1 : ¬ c = 'm') (h2 : ¬ c = 'l') (h3 : ¬ c = 'u') (h4 : ¬ c = 'g')
    (h5 : ¬ c = 's') (h6 : ¬ c = 't') (h7 : ¬ c = 'n') (h8 : ¬ c = 'd') :
    documentedFlag K c = 0 := by
  have b1 : (c == 'm') = false := beq_eq_false_iff_ne.mpr h1
  have b2 : (c == 'l') = false := beq_eq_false_iff_ne.mpr h2
  have b3 : (c == 'u') = false := beq_eq_false_iff_ne.mpr h3
  have b4 : (c == 'g') = false := beq_eq_false_iff_ne.mpr h4
  have b5 : (c == 's') = false := beq_eq_false_iff_ne.mpr h5
  have b6 : (c == 't') = false := beq_eq_false_iff_ne.mpr h6
  have b7 : (c == 'n') = false := beq_eq_false_iff_ne.mpr h7
  have b8 : (c == 'd') = false := beq_eq_false_iff_ne.mpr h8
  simp only [documentedFlag, skipFieldsUsage, List.lookup, b1, b2, b3, b4,
    b5, b6, b7, b8]

theorem switchChar_documented (K : ListSelectors) (mask : Nat) (c : Char) :
    switchChar K mask c = mask ||| documentedFlag K c := by
  unfold switchChar
  split_ifs with h1 h2 h3 h4 h5 h6 h7 h8
  · subst h1; rfl
  · subst h2; rfl
  · subst h3; rfl
  · subst h4; rfl
  · subst h5; rfl
  · subst h6; rfl
  · subst h7; rfl
  · subst h8; rfl
  · rw [documentedFlag_other K c h1 h2 h3 h4 h5 h6 h7 h8, Nat.or_zero]

theorem makeListSelectorLoop_fold (K : ListSelectors) (chars : List Char) :
    ∀ mask, makeListSelectorLoop K chars mask =
      chars.foldl (fun mask char => mask ||| documentedFlag K char) mask := by
  induction chars with
  | nil => intro mask; rfl
  | cons c rest ih =>
    intro mask
    simp only [makeListSelectorLoop, List.foldl_cons]
    rw [ih, switchChar_documented]

/-- C12: for every argument, makeListSelector returns ListSelectAll with
the documented skip flag of each character or-ed in, where the usage text
maps m, l, u, g, s, t, n, d to the skip flags of mode, number of links,
UID, GID, size/devnum, mtime, name and data; any other character leaves the
mask as it is, and the empty argument gives ListSelectAll. -/
theorem makeListSelector_documented (K : ListSelectors) (arg : String) :
    makeListSelector K arg = documentedSelector K arg ∧
    makeListSelector K "" = K.ListSelectAll ∧
    documentedFlag K 'm' = K.ListSelectSkipMode ∧
    documentedFlag K 'l' = K.ListSelectSkipNumLinks ∧
    documentedFlag K 'u' = K.ListSelectSkipUid ∧
    documentedFlag K 'g' = K.ListSelectSkipGid ∧
    documentedFlag K 's' = K.ListSelectSkipSizeDevnum ∧
    documentedFlag K 't' = K.ListSelectSkipMtime ∧
    documentedFlag K 'n' = K.ListSelectSkipName ∧
    documentedFlag K 'd' = K.ListSelectSkipData ∧
    (∀ c : Char, c ∉ ['m', 'l', 'u', 'g', 's', 't', 'n', 'd'] →
      documentedFlag K c = 0 ∧ ∀ mask, switchChar K mask c = mask) := by
  refine ⟨makeListSelectorLoop_fold K arg.data K.ListSelectAll, rfl, rfl, rfl,
    rfl, rfl, rfl, rfl, rfl, rfl, ?_⟩
  intro c hc
  simp only [List.mem_cons, List.mem_singleton, List.not_mem_nil, or_false,
    not_or] at hc
  obtain ⟨h1, h2, h3, h4, h5, h6, h7, h8⟩ := hc
  refine ⟨?_, ?_⟩
  · exact documentedFlag_other K c h1 h2 h3 h4 h5 h6 h7 h8
  · intro mask
    simp [switchChar, h1, h2, h3, h4, h5, h6, h7, h8]

/-! ## Theorems: doMain -/

/-- C13, as stated, fails: with expiresIn zero and a first argument that
names no subcommand, the flags load and parse, an argument is there and no
filter file is loaded, and doMain returns status 2 without running any
subcommand, although expiresIn is not between zero and minimumExpiration. -/
theorem doMain_returns_two_past_expiration_check :
    unknownSubcommand.loadFlagsFails = false ∧
    flagParse unknownSubcommand = none ∧
    1 ≤ unknownSubcommand.args.length ∧
    unknownSubcommand.filterFile = "" ∧
    unknownSubcommand.expiresIn = 0 ∧
    subcommands.all (fun c => c.command != "bogus") = true ∧
    (doMain sampleSelectors unknownSubcommand).status = 2 ∧
    (doMain sampleSelectors unknownSubcommand).ranSubcommand = false ∧
    ¬ (0 < unknownSubcommand.expiresIn ∧
      unknownSubcommand.expiresIn < minimumExpiration) ∧
    ¬ (((doMain sampleSelectors unknownSubcommand).status = 2 ∧
        (doMain sampleSelectors unknownSubcommand).ranSubcommand = false) ↔
      (0 < unknownSubcommand.expiresIn ∧
        unknownSubcommand.expiresIn < minimumExpiration)) := by
  decide

/-- C13, amended: when the flags load and parse and there is at least one
positional argument, and no filter file fails to load, doMain returns
status 2 before RunCommands is called exactly when expiresIn is greater
than zero and less than minimumExpiration, which is 15 minutes, and it
then ends at the expiration check; an expiresIn of at most zero or of at
least 15 minutes gets past the check, to where the list selector is set. -/
theorem doMain_expiration_check (K : ListSelectors) (inv : Invocation)
    (hload : inv.loadFlagsFails = false) (hparse : flagParse inv = none)
    (hargs : 1 ≤ inv.args.length)
    (hfilter : ¬ (inv.filterFile ≠ "" ∧ inv.filterLoadFails = true)) :
    (((doMain K inv).status = 2 ∧ (doMain K inv).stage ≠ Stage.commands) ↔
      (0 < inv.expiresIn ∧ inv.expiresIn < minimumExpiration)) ∧
    ((doMain K inv).stage = Stage.expiration ↔
      (0 < inv.expiresIn ∧ inv.expiresIn < minimumExpiration)) ∧
    minimumExpiration = 15 * 60 * 1000000000 ∧
    ((inv.expiresIn ≤ 0 ∨ 15 * 60 * 1000000000 ≤ inv.expiresIn) →
      (doMain K inv).stage ≠ Stage.expiration ∧
      (doMain K inv).listSelector =
        some (makeListSelector K inv.skipFields)) := by
  have hn : ¬ inv.args.length < 1 := by omega
  have hmin : minimumExpiration = 15 * 60 * 1000000000 := by decide
  have hstage : (doMain K inv).stage = Stage.expiration ↔
      (0 < inv.expiresIn ∧ inv.expiresIn < minimumExpiration) := by
    by_cases he : inv.expiresIn > 0 ∧ inv.expiresIn < minimumExpiration
    · simp only [doMain, hload, hparse, hn, he, Bool.false_eq_true, if_false]
      simp [he.1, he.2]
    · have hne : ¬ (0 < inv.expiresIn ∧ inv.expiresIn < minimumExpiration) :=
        he
      simp only [doMain, hload, hparse, hn, he, hfilter, Bool.false_eq_true,
        if_false, hne, iff_false]
      cases inv.setupTlsFails <;> cases inv.dialerFails <;> simp
  refine ⟨?_, hstage, hmin, ?_⟩
  · by_cases he : inv.expiresIn > 0 ∧ inv.expiresIn < minimumExpiration
    · simp only [doMain, hload, hparse, hn, he, Bool.false_eq_true, if_false]
      simp [he.1, he.2]
    · have hne : ¬ (0 < inv.expiresIn ∧ inv.expiresIn < minimumExpiration) :=
        he
      simp only [doMain, hload, hparse, hn, he, hfilter, Bool.false_eq_true,
        if_false, hne, iff_false]
      cases inv.setupTlsFails <;> cases inv.dialerFails <;> simp
  · intro hpass
    have he : ¬ (inv.expiresIn > 0 ∧ inv.expiresIn < minimumExpiration) := by
      rw [hmin]
      omega
    refine ⟨fun hs => he (hstage.mp hs), ?_⟩
    simp only [doMain, hload, hparse, hn, he, hfilter, Bool.false_eq_true,
      if_false]
    cases inv.setupTlsFails <;> cases inv.dialerFails <;> simp

/-- The amended C13 at an expiresIn of five minutes, with one argument:
the flags load and parse, an argument is there, and doMain returns 2 at the
expiration check, before RunCommands is called. -/
theorem doMain_expiration_check_witness :
    shortExpiry.loadFlagsFails = false ∧ flagParse shortExpiry = none ∧
    1 ≤ shortExpiry.args.length ∧
    (doMain sampleSelectors shortExpiry).status = 2 ∧
    (doMain sampleSelectors shortExpiry).stage ≠ Stage.commands :=
  ⟨rfl, by decide, by decide,
    (doMain_expiration_check sampleSelectors shortExpiry rfl (by decide)
      (by decide) (by decide)).1.mpr (by decide)⟩

/-! ## Theorems: the subcommands table -/

/-- C15: for every entry of the subcommands table, the number of
unbracketed argument names of the usage text is minArgs; maxArgs is -1
exactly when the last argument name ends in three dots, and otherwise it is
the number of unbracketed names plus the number of bracketed ones, and is
at least minArgs. -/
theorem subcommand_bounds_match_usage (c : Command) (h : c ∈ subcommands) :
    (c.requiredNames : Int) = c.minArgs ∧
    (c.maxArgs = -1 ↔ c.lastRepeated = true) ∧
    (c.maxArgs ≠ -1 →
      c.maxArgs = (c.requiredNames : Int) + (c.optionalNames : Int)) ∧
    (c.maxArgs ≠ -1 → c.minArgs ≤ c.maxArgs) := by
  revert c
  decide

/-- C15 at the get-file-in-image entry. -/
theorem subcommand_bounds_match_usage_witness :
    (⟨"get-file-in-image", "      name imageFile [outfile]", 2, 3,
      "getFileInImageSubcommand"⟩ : Command) ∈ subcommands ∧
    (Command.requiredNames ⟨"get-file-in-image",
      "      name imageFile [outfile]", 2, 3,
      "getFileInImageSubcommand"⟩ : Int) = 2 :=
  ⟨by decide,
    (subcommand_bounds_match_usage
      ⟨"get-file-in-image", "      name imageFile [outfile]", 2, 3,
        "getFileInImageSubcommand"⟩ (by decide)).1⟩

/-! ## Theorems: the image server clients -/

/-- C14, on the code.  For every configuration and every value of the
client variables: with an empty masterImageServerHostname, getMasterClients
is getClients, it leaves the two master variables as they were, and when
imageSrpcClient is nil it returns the client dialed at the image server
with an object client attached to it.  With a non-empty one and a nil
masterImageSrpcClient it dials the master address, stores and returns that
client, and the object client it stores and returns is attached to
imageSrpcClient, not to the master client; it exits with status 1 when
dialing fails and returns the values already there when the master client
is set.  At the failing input, after getClients has run, the master object
client returned is attached to the client of the image server. -/
theorem getMasterClients_result :
    (∀ (cfg : ClientConfig) (g : Globals),
      (cfg.masterImageServerHostname = "" →
        getMasterClients cfg g = getClients cfg g ∧
        (∀ g1 pair, getMasterClients cfg g = .ok (g1, pair) →
          g1.masterImageSrpcClient = g.masterImageSrpcClient ∧
          g1.theMasterObjectClient = g.theMasterObjectClient) ∧
        (∀ c, g.imageSrpcClient = none →
          cfg.dial (clientName cfg.imageServerHostname
            cfg.imageServerPortNum) = some c →
          getMasterClients cfg g =
            .ok (⟨some c, g.masterImageSrpcClient,
                some (AttachObjectClient (some c)),
                g.theMasterObjectClient⟩,
              some c, some (AttachObjectClient (some c))))) ∧
      (cfg.masterImageServerHostname ≠ "" →
        (∀ c, g.masterImageSrpcClient = none →
          cfg.dial (clientName cfg.masterImageServerHostname
            cfg.imageServerPortNum) = some c →
          getMasterClients cfg g =
            .ok (⟨g.imageSrpcClient, some c, g.theObjectClient,
                some (AttachObjectClient g.imageSrpcClient)⟩,
              some c, some (AttachObjectClient g.imageSrpcClient))) ∧
        (g.masterImageSrpcClient = none →
          cfg.dial (clientName cfg.masterImageServerHostname
            cfg.imageServerPortNum) = none →
          getMasterClients cfg g = .error 1) ∧
        (∀ c, g.masterImageSrpcClient = some c →
          getMasterClients cfg g =
            .ok (g, some c, g.theMasterObjectClient)))) ∧
    getClients withMaster noClients =
      .ok (afterGetClients, afterGetClients.imageSrpcClient,
        afterGetClients.theObjectClient) ∧
    getMasterClients withMaster afterGetClients =
      .ok (⟨some ⟨"localhost:6971", 1⟩, some ⟨"master:6971", 1⟩,
          some (AttachObjectClient (some ⟨"localhost:6971", 1⟩)),
          some (AttachObjectClient (some ⟨"localhost:6971", 1⟩))⟩,
        some ⟨"master:6971", 1⟩,
        some (AttachObjectClient (some ⟨"localhost:6971", 1⟩))) ∧
    AttachObjectClient (some ⟨"localhost:6971", 1⟩) ≠
      AttachObjectClient (some ⟨"master:6971", 1⟩) := by
  refine ⟨?_, rfl, rfl, by decide⟩
  intro cfg g
  refine ⟨?_, ?_⟩
  · intro hm
    refine ⟨by simp [getMasterClients, hm], ?_, ?_⟩
    · intro g1 pair hok
      simp only [getMasterClients, hm, if_true, getClients] at hok
      unfold getPointedClients at hok
      by_cases hn : (g.client .imageSrpcClient).isNone = true
      · simp only [hn, if_true] at hok
        cases hd : cfg.dial (clientName cfg.imageServerHostname
            cfg.imageServerPortNum) with
        | none => simp [hd] at hok
        | some c =>
          simp only [hd] at hok
          injection hok with hok
          injection hok with hg _
          subst hg
          exact ⟨rfl, rfl⟩
      · simp only [hn, Bool.false_eq_true, if_false] at hok
        injection hok with hok
        injection hok with hg _
        subst hg
        exact ⟨rfl, rfl⟩
    · intro c hnone hd
      simp only [getMasterClients, hm, if_true, getClients,
        getPointedClients, Globals.client, hnone, Option.isNone_none, hd]
      rfl
  · intro hm
    refine ⟨?_, ?_, ?_⟩
    · intro c hnone hd
      simp only [getMasterClients, hm, if_false, getPointedClients,
        Globals.client, hnone, Option.isNone_none, if_true, hd]
      rfl
    · intro hnone hd
      simp [getMasterClients, hm, getPointedClients, Globals.client, hnone,
        hd]
    · intro c hsome
      simp [getMasterClients, hm, getPointedClients, Globals.client, hsome]

/-- C16, on the code: with a master hostname set and no client variable
set yet, getMasterClients dials the master and returns its client, but the
object client it returns is attached to imageSrpcClient, which is nil, and
not to the master client just stored. -/
theorem getMasterClients_attaches_image_client :
    getMasterClients withMaster noClients =
      .ok (⟨none, some ⟨"master:6971", 1⟩, none,
          some (AttachObjectClient none)⟩,
        some ⟨"master:6971", 1⟩, some (AttachObjectClient none)) ∧
    AttachObjectClient none ≠
      AttachObjectClient (some ⟨"master:6971", 1⟩) ∧
    getClients withMaster noClients =
      .ok (⟨some ⟨"localhost:6971", 1⟩, none,
          some (AttachObjectClient (some ⟨"localhost:6971", 1⟩)), none⟩,
        some ⟨"localhost:6971", 1⟩,
        some (AttachObjectClient (some ⟨"localhost:6971", 1⟩))) := by
  refine ⟨?_, by decide, ?_⟩
  · rfl
  · rfl

end Imagetool
